import Mathlib

/-!
Verification development for the kloppy event-deserialization pipeline
(StatsPerform and UEFA providers): a shallow embedding of
src/kloppy/infra/serializers/event/statsperform/deserializer.py and
src/kloppy/infra/serializers/event/uefa/deserializer.py, with theorems
about period tracking, possession tracking, qualifier chains, builders,
timestamps and error behaviour.

Modelling conventions:
- Python floats that hold pitch percentages are modelled as rationals.
- Absolute datetimes are modelled as integers (seconds); timedeltas as
  integer differences.
- A raw qualifier mapping (a Python dict from int code to an optional
  JSON value) is modelled as a function from Nat to Option RawVal;
  none means the key is absent, some RawVal.null means the key is
  present with a null value.
- Python exceptions that can escape the deserializer are modelled with
  the PyError type; fallible code returns Except PyError.
- The externally supplied coordinate transformer and the event factory
  are outside the embedded core: the fold keeps the built canonical
  events; the inclusion predicate is a parameter.
-/

namespace Kloppy

/-- A raw JSON value sitting in a qualifier slot: a numeric string
(modelled by the rational it parses to), a datetime string (modelled by
the instant it parses to, in seconds), or null. -/
inductive RawVal where
  | num (q : ℚ)
  | time (t : ℤ)
  | null
deriving DecidableEq, Repr

/-- The exception kinds that can escape the embedded code. -/
inductive PyError where
  | deserializationError (msg : String)
  | keyError (key : String)
  | indexError
  | typeError
  | valueError (msg : String)
  | attributeError
deriving DecidableEq, Repr

/-- A Python dict from qualifier code to optional value. -/
def RawQualifiers : Type := Nat → Option RawVal

/-- Python `d[k]`: raises KeyError when the key is absent. -/
def dictGetItem (raws : RawQualifiers) (k : Nat) : Except PyError RawVal :=
  match raws k with
  | some v => .ok v
  | none => .error (.keyError (toString k))

/-- Python `float(v)` on the value found in a qualifier slot: a numeric
string parses to its number, null raises TypeError, a datetime string
raises ValueError. -/
def pyFloat : RawVal → Except PyError ℚ
  | .num q => .ok q
  | .time _ => .error (.valueError "could not convert string to float")
  | .null => .error .typeError

/-- Python `int(v)` on a qualifier-slot value: an integral numeric
string parses, a fractional one raises ValueError, null raises
TypeError. -/
def pyInt : RawVal → Except PyError ℤ
  | .num q => if q.den = 1 then .ok q.num else .error (.valueError "invalid literal for int")
  | .time _ => .error (.valueError "invalid literal for int")
  | .null => .error .typeError

/-- Embedding of `try_parsing_date(raw_qualifiers.get(374).replace(" ", "T") + "Z")`:
null has no replace method (AttributeError), a non-datetime string fails
every accepted format (ValueError), a datetime string parses. -/
def pyQualifierDate : RawVal → Except PyError ℤ
  | .time t => .ok t
  | .num _ => .error (.valueError "no valid date format found")
  | .null => .error .attributeError

/-- A point on the pitch, in percentage units. -/
structure Point where
  x : ℚ
  y : ℚ
deriving DecidableEq, Repr

/-- kloppy.domain.BallState (the two states this pipeline uses). -/
inductive BallState where
  | alive
  | dead
deriving DecidableEq, Repr

/-- kloppy.domain.PassResult values used by these deserializers. -/
inductive PassResult where
  | complete
  | incomplete
  | offside
deriving DecidableEq, Repr

/-- kloppy.domain.ShotResult values used by these deserializers. -/
inductive ShotResult where
  | goal
  | ownGoal
  | offTarget
deriving DecidableEq, Repr

/-- kloppy.domain.TakeOnResult values used by these deserializers. -/
inductive TakeOnResult where
  | complete
  | incomplete
deriving DecidableEq, Repr

/-- kloppy.domain.CardType. -/
inductive CardType where
  | firstYellow
  | secondYellow
  | red
deriving DecidableEq, Repr

/-- kloppy.domain.SetPieceType values used here. -/
inductive SetPieceType where
  | cornerKick
  | freeKick
  | penalty
  | throwIn
  | kickOff
  | goalKick
deriving DecidableEq, Repr

/-- kloppy.domain.BodyPart values used here. -/
inductive BodyPart where
  | head
  | leftFoot
  | rightFoot
  | other
deriving DecidableEq, Repr

/-- kloppy.domain.PassType values used here. -/
inductive PassType where
  | cross
  | longBall
  | chippedPass
  | throughBall
  | launch
  | flickOn
  | assist
  | assist2nd
deriving DecidableEq, Repr

/-- A canonical qualifier: SetPieceQualifier, BodyPartQualifier,
PassQualifier or CardQualifier with its value. -/
inductive Qualifier where
  | setPiece (value : SetPieceType)
  | bodyPart (value : BodyPart)
  | passType (value : PassType)
  | card (value : CardType)
deriving DecidableEq, Repr

/-- kloppy.domain.FormationType, identified by its formation string. -/
structure FormationType where
  code : String
deriving DecidableEq, Repr

/-- A resolved team reference: teams[0] is home, teams[1] is away. -/
inductive TeamRef where
  | home
  | away
deriving DecidableEq, Repr

/-- kloppy.domain.Period: identifier plus mutable start/end timestamps. -/
structure Period where
  id : ℤ
  start_timestamp : Option ℤ
  end_timestamp : Option ℤ
deriving DecidableEq, Repr

/-- The kind of canonical event a factory build method produces. -/
inductive EventKind where
  | passKind
  | takeOn
  | shot
  | recovery
  | foulCommitted
  | ballOut
  | formationChange
  | card
  | generic
deriving DecidableEq, Repr

/-- The kind-specific result value attached to a canonical event. -/
inductive ResultVal where
  | passR (r : PassResult)
  | shotR (r : ShotResult)
  | takeOnR (r : TakeOnResult)
deriving DecidableEq, Repr

/-- A built canonical event: the common DataRecord/Event fields of the
kwargs dicts handed to the event factory, plus the kind-specific extra
fields (None when the kind does not carry them). The opaque raw_event
back-reference is not modelled. -/
structure Event where
  kind : EventKind
  period_id : ℤ
  timestamp : ℤ
  ball_owning_team : Option TeamRef
  ball_state : BallState
  event_id : String
  team : Option TeamRef
  player : Option String
  coordinates : Option Point
  result : Option ResultVal
  qualifiers : Option (List Qualifier)
  receiver_coordinates : Option Point := none
  card_type : Option CardType := none
  formation_type : Option FormationType := none
  event_name : Option String := none
deriving DecidableEq, Repr

namespace StatsPerform

def EVENT_TYPE_START_PERIOD : ℤ := 32

def EVENT_TYPE_END_PERIOD : ℤ := 30

def EVENT_TYPE_PASS : ℤ := 1

def EVENT_TYPE_OFFSIDE_PASS : ℤ := 2

def EVENT_TYPE_TAKE_ON : ℤ := 3

def EVENT_TYPE_SHOT_MISS : ℤ := 13

def EVENT_TYPE_SHOT_POST : ℤ := 14

def EVENT_TYPE_SHOT_SAVED : ℤ := 15

def EVENT_TYPE_SHOT_GOAL : ℤ := 16

def EVENT_TYPE_BALL_OUT : ℤ := 5

def EVENT_TYPE_CORNER_AWARDED : ℤ := 6

def EVENT_TYPE_FOUL_COMMITTED : ℤ := 4

def EVENT_TYPE_CARD : ℤ := 17

def EVENT_TYPE_RECOVERY : ℤ := 49

def EVENT_TYPE_FORMATION_CHANGE : ℤ := 40

def BALL_OUT_EVENTS : List ℤ := [EVENT_TYPE_BALL_OUT, EVENT_TYPE_CORNER_AWARDED]

def BALL_OWNING_EVENTS : List ℤ :=
  [EVENT_TYPE_PASS, EVENT_TYPE_OFFSIDE_PASS, EVENT_TYPE_TAKE_ON, EVENT_TYPE_SHOT_MISS,
    EVENT_TYPE_SHOT_POST, EVENT_TYPE_SHOT_SAVED, EVENT_TYPE_SHOT_GOAL, EVENT_TYPE_RECOVERY]

def EVENT_QUALIFIER_GOAL_KICK : Nat := 124

def EVENT_QUALIFIER_FREE_KICK : Nat := 5

def EVENT_QUALIFIER_THROW_IN : Nat := 107

def EVENT_QUALIFIER_CORNER_KICK : Nat := 6

def EVENT_QUALIFIER_PENALTY : Nat := 9

def EVENT_QUALIFIER_KICK_OFF : Nat := 279

def EVENT_QUALIFIER_FREE_KICK_SHOT : Nat := 26

def EVENT_QUALIFIER_HEAD_PASS : Nat := 3

def EVENT_QUALIFIER_HEAD : Nat := 15

def EVENT_QUALIFIER_LEFT_FOOT : Nat := 72

def EVENT_QUALIFIER_RIGHT_FOOT : Nat := 20

def EVENT_QUALIFIER_OTHER_BODYPART : Nat := 21

def EVENT_QUALIFIER_LONG_BALL : Nat := 1

def EVENT_QUALIFIER_CROSS : Nat := 2

def EVENT_QUALIFIER_THROUGH_BALL : Nat := 4

def EVENT_QUALIFIER_CHIPPED_BALL : Nat := 155

def EVENT_QUALIFIER_LAUNCH : Nat := 157

def EVENT_QUALIFIER_FLICK_ON : Nat := 168

def EVENT_QUALIFIER_SWITCH_OF_PLAY : Nat := 196

def EVENT_QUALIFIER_ASSIST : Nat := 210

def EVENT_QUALIFIER_ASSIST_2ND : Nat := 218

def EVENT_QUALIFIER_FIRST_YELLOW_CARD : Nat := 31

def EVENT_QUALIFIER_SECOND_YELLOW_CARD : Nat := 32

def EVENT_QUALIFIER_RED_CARD : Nat := 33

def EVENT_QUALIFIER_TEAM_FORMATION : Nat := 130

/-- Python membership test `code in raw_qualifiers` on the qualifier
dict: true exactly when the key is present. -/
def qualifierPresent (raws : RawQualifiers) (code : Nat) : Bool :=
  (raws code).isSome

/-- Embedding of `_get_event_setpiece_qualifiers`. -/
def _get_event_setpiece_qualifiers (raws : RawQualifiers) : List Qualifier :=
  if qualifierPresent raws EVENT_QUALIFIER_CORNER_KICK then
    [.setPiece .cornerKick]
  else if qualifierPresent raws EVENT_QUALIFIER_FREE_KICK
      || qualifierPresent raws EVENT_QUALIFIER_FREE_KICK_SHOT then
    [.setPiece .freeKick]
  else if qualifierPresent raws EVENT_QUALIFIER_PENALTY then
    [.setPiece .penalty]
  else if qualifierPresent raws EVENT_QUALIFIER_THROW_IN then
    [.setPiece .throwIn]
  else if qualifierPresent raws EVENT_QUALIFIER_KICK_OFF then
    [.setPiece .kickOff]
  else if qualifierPresent raws EVENT_QUALIFIER_GOAL_KICK then
    [.setPiece .goalKick]
  else []

/-- Embedding of `_get_event_bodypart_qualifiers`. -/
def _get_event_bodypart_qualifiers (raws : RawQualifiers) : List Qualifier :=
  if qualifierPresent raws EVENT_QUALIFIER_HEAD_PASS then
    [.bodyPart .head]
  else if qualifierPresent raws EVENT_QUALIFIER_HEAD then
    [.bodyPart .head]
  else if qualifierPresent raws EVENT_QUALIFIER_LEFT_FOOT then
    [.bodyPart .leftFoot]
  else if qualifierPresent raws EVENT_QUALIFIER_RIGHT_FOOT then
    [.bodyPart .rightFoot]
  else if qualifierPresent raws EVENT_QUALIFIER_OTHER_BODYPART then
    [.bodyPart .other]
  else []

/-- Embedding of `_get_event_pass_qualifiers`. -/
def _get_event_pass_qualifiers (raws : RawQualifiers) : List Qualifier :=
  if qualifierPresent raws EVENT_QUALIFIER_CROSS then
    [.passType .cross]
  else if qualifierPresent raws EVENT_QUALIFIER_LONG_BALL then
    [.passType .longBall]
  else if qualifierPresent raws EVENT_QUALIFIER_CHIPPED_BALL then
    [.passType .chippedPass]
  else if qualifierPresent raws EVENT_QUALIFIER_THROUGH_BALL then
    [.passType .throughBall]
  else if qualifierPresent raws EVENT_QUALIFIER_LAUNCH then
    [.passType .launch]
  else if qualifierPresent raws EVENT_QUALIFIER_FLICK_ON then
    [.passType .flickOn]
  else if qualifierPresent raws EVENT_QUALIFIER_ASSIST then
    [.passType .assist]
  else if qualifierPresent raws EVENT_QUALIFIER_ASSIST_2ND then
    [.passType .assist2nd]
  else []

/-- Embedding of `_get_event_card_qualifiers`. -/
def _get_event_card_qualifiers (raws : RawQualifiers) : List Qualifier :=
  if qualifierPresent raws EVENT_QUALIFIER_RED_CARD then
    [.card .red]
  else if qualifierPresent raws EVENT_QUALIFIER_FIRST_YELLOW_CARD then
    [.card .firstYellow]
  else if qualifierPresent raws EVENT_QUALIFIER_SECOND_YELLOW_CARD then
    [.card .secondYellow]
  else []

/-- Embedding of `_get_event_qualifiers`: the four chains concatenated. -/
def _get_event_qualifiers (raws : RawQualifiers) : List Qualifier :=
  _get_event_setpiece_qualifiers raws
    ++ _get_event_bodypart_qualifiers raws
    ++ _get_event_pass_qualifiers raws
    ++ _get_event_card_qualifiers raws

/-- Python membership test `code in qualifiers` where `qualifiers` is
the list of canonical Qualifier objects built by `_get_event_qualifiers`:
the underlying == comparison between an int and a Qualifier dataclass
instance is False for every element, so the test never succeeds. -/
def intInQualifierList (_code : Nat) (qualifiers : List Qualifier) : Bool :=
  qualifiers.any (fun _ => false)

/-- The kwargs dict returned by `_parse_pass` and `_parse_offside_pass`. -/
structure PassKwargs where
  result : PassResult
  receiver_coordinates : Option Point
  receiver_player : Option String
  receive_timestamp : Option ℤ
  qualifiers : List Qualifier
deriving DecidableEq, Repr

/-- Embedding of `_parse_pass`: both branches of `if outcome:` read the
receiver point from slots 140 and 141 with guard-free dict indexing
(left to right, 140 first), the only difference being the result. -/
def _parse_pass (raw_qualifiers : RawQualifiers) (outcome : ℤ) : Except PyError PassKwargs :=
  match dictGetItem raw_qualifiers 140 with
  | .error err => .error err
  | .ok vx =>
    match pyFloat vx with
    | .error err => .error err
    | .ok x =>
      match dictGetItem raw_qualifiers 141 with
      | .error err => .error err
      | .ok vy =>
        match pyFloat vy with
        | .error err => .error err
        | .ok y =>
          .ok { result := if outcome ≠ 0 then PassResult.complete else PassResult.incomplete,
                receiver_coordinates := some (Point.mk x y),
                receiver_player := none, receive_timestamp := none,
                qualifiers := _get_event_qualifiers raw_qualifiers }

/-- Embedding of `_parse_offside_pass`: result is unconditionally
OFFSIDE, the receiver point read from slots 140 and 141 as in
`_parse_pass`. -/
def _parse_offside_pass (raw_qualifiers : RawQualifiers) : Except PyError PassKwargs :=
  match dictGetItem raw_qualifiers 140 with
  | .error err => .error err
  | .ok vx =>
    match pyFloat vx with
    | .error err => .error err
    | .ok x =>
      match dictGetItem raw_qualifiers 141 with
      | .error err => .error err
      | .ok vy =>
        match pyFloat vy with
        | .error err => .error err
        | .ok y =>
          .ok { result := PassResult.offside,
                receiver_coordinates := some (Point.mk x y),
                receiver_player := none, receive_timestamp := none,
                qualifiers := _get_event_qualifiers raw_qualifiers }

/-- Embedding of `_parse_take_on`. -/
def _parse_take_on (outcome : ℤ) : TakeOnResult :=
  if outcome ≠ 0 then TakeOnResult.complete else TakeOnResult.incomplete

/-- The kwargs dict returned by `_parse_card`. -/
structure CardKwargs where
  qualifiers : List Qualifier
  card_type : Option CardType
deriving DecidableEq, Repr

/-- Embedding of `_parse_card`: the severity checks test membership of
the raw integer codes in the list of already-built canonical Qualifier
objects (not in the raw qualifier dict). -/
def _parse_card (raw_qualifiers : RawQualifiers) : CardKwargs :=
  let qualifiers := _get_event_qualifiers raw_qualifiers
  let card_type : Option CardType :=
    if intInQualifierList EVENT_QUALIFIER_RED_CARD qualifiers then
      some CardType.red
    else if intInQualifierList EVENT_QUALIFIER_FIRST_YELLOW_CARD qualifiers then
      some CardType.firstYellow
    else if intInQualifierList EVENT_QUALIFIER_SECOND_YELLOW_CARD qualifiers then
      some CardType.secondYellow
    else none
  { qualifiers := qualifiers, card_type := card_type }

/-- The `formations_num` lookup table, each formation identified by its
formation string. -/
def formations_num : List (ℤ × FormationType) :=
  [(2, ⟨"442"⟩), (3, ⟨"41212"⟩), (4, ⟨"433"⟩), (5, ⟨"451"⟩), (6, ⟨"4411"⟩),
   (7, ⟨"4141"⟩), (8, ⟨"4231"⟩), (9, ⟨"4321"⟩), (10, ⟨"532"⟩), (11, ⟨"541"⟩),
   (12, ⟨"352"⟩), (13, ⟨"343"⟩), (14, ⟨"31312"⟩), (15, ⟨"4222"⟩), (16, ⟨"3511"⟩),
   (17, ⟨"3421"⟩), (18, ⟨"3412"⟩), (19, ⟨"3142"⟩), (20, ⟨"31213"⟩), (21, ⟨"4132"⟩),
   (22, ⟨"4240"⟩), (23, ⟨"4312"⟩), (24, ⟨"3241"⟩), (25, ⟨"3331"⟩)]

/-- Embedding of `_parse_formation_change`: guard-free dict indexing of
slot 130, int conversion, then a `formations_num[...]` lookup whose miss
is a KeyError. -/
def _parse_formation_change (raw_qualifiers : RawQualifiers) : Except PyError FormationType :=
  match dictGetItem raw_qualifiers EVENT_QUALIFIER_TEAM_FORMATION with
  | .error err => .error err
  | .ok v =>
    match pyInt v with
    | .error err => .error err
    | .ok formation_id =>
      match formations_num.lookup formation_id with
      | some f => .ok f
      | none => .error (.keyError (toString formation_id))

/-- The kwargs dict returned by `_parse_shot`. -/
structure ShotKwargs where
  coordinates : Point
  result : Option ShotResult
  qualifiers : List Qualifier
deriving DecidableEq, Repr

/-- Embedding of `_parse_shot`: a scored goal with raw qualifier 28
present is an own goal with the coordinates point-mirrored through the
pitch center; a scored goal without it is a goal; other shot kinds carry
no result. -/
def _parse_shot (raw_qualifiers : RawQualifiers) (type_id : ℤ) (coordinates : Point) : ShotKwargs :=
  let cr : Point × Option ShotResult :=
    if type_id = EVENT_TYPE_SHOT_GOAL then
      if qualifierPresent raw_qualifiers 28 then
        (Point.mk (100 - coordinates.x) (100 - coordinates.y), some ShotResult.ownGoal)
      else (coordinates, some ShotResult.goal)
    else (coordinates, none)
  { coordinates := cr.1, result := cr.2, qualifiers := _get_event_qualifiers raw_qualifiers }

/-- The `event_type_names` static table. -/
def event_type_names : List (ℤ × String) :=
  [(1, "pass"), (2, "offside pass"), (3, "take on"), (4, "foul"), (5, "out"),
   (6, "corner awarded"), (7, "tackle"), (8, "interception"), (9, "turnover"),
   (10, "save"), (11, "claim"), (12, "clearance"), (13, "miss"), (14, "post"),
   (15, "attempt saved"), (16, "goal"), (17, "card"), (18, "player off"),
   (19, "player on"), (20, "player retired"), (21, "player returns"),
   (22, "player becomes goalkeeper"), (23, "goalkeeper becomes player"),
   (24, "condition change"), (25, "official change"), (26, "unknown26"),
   (27, "start delay"), (28, "end delay"), (29, "unknown29"), (30, "end"),
   (31, "unknown31"), (32, "start"), (33, "unknown33"), (34, "team set up"),
   (35, "player changed position"), (36, "player changed jersey number"),
   (37, "collection end"), (38, "temp_goal"), (39, "temp_attempt"),
   (40, "formation change"), (41, "punch"), (42, "good skill"), (43, "deleted event"),
   (44, "aerial"), (45, "challenge"), (46, "unknown46"), (47, "rescinded card"),
   (48, "unknown46"), (49, "ball recovery"), (50, "dispossessed"), (51, "error"),
   (52, "keeper pick-up"), (53, "cross not claimed"), (54, "smother"),
   (55, "offside provoked"), (56, "shield ball opp"), (57, "foul throw in"),
   (58, "penalty faced"), (59, "keeper sweeper"), (60, "chance missed"),
   (61, "ball touch"), (62, "unknown62"), (63, "temp_save"), (64, "resume"),
   (65, "contentious referee decision"), (66, "possession data"), (67, "50/50"),
   (68, "referee drop ball"), (69, "failed to block"), (70, "injury time announcement"),
   (71, "coach setup"), (72, "caught offside"), (73, "other ball contact"),
   (74, "blocked pass"), (75, "delayed start"), (76, "early end"), (77, "player off pitch")]

/-- Embedding of `_get_event_type_name`. -/
def _get_event_type_name (type_id : ℤ) : String :=
  (event_type_names.lookup type_id).getD "unknown"

/-- One record of the MA3 events document, with the fields the
deserializer consumes already read off the JSON dict: id, typeId,
timeStamp (parsed to an instant), periodId, contestantId, x, y,
outcome, the qualifier dict, and the optional playerId. The optional
team_id field models whether the JSON dict happens to carry a
"team_id" key (the MA3 schema does not define one); it is only ever
read while formatting the unknown-team error message. -/
structure RawEvent where
  event_id : String
  type_id : ℤ
  timeStamp : ℤ
  period_id : ℤ
  contestantId : String
  team_id : Option String := none
  x : ℚ
  y : ℚ
  outcome : ℤ
  qualifier : RawQualifiers
  playerId : Option String := none

/-- The two fold accumulators of `StatsPerformDeserializer.deserialize`:
the period list (mutated in place by period markers) and the running
possession team. -/
structure DeserializerState where
  periods : List Period
  possession_team : Option TeamRef

/-- The `for period in periods: if period.id == period_id: break` scan:
first period with the matching id, together with its index. -/
def findPeriod : List Period → ℤ → Option (Nat × Period)
  | [], _ => none
  | p :: ps, pid =>
    if p.id = pid then some (0, p)
    else (findPeriod ps pid).map (fun ip => (ip.1 + 1, ip.2))

/-- The team-resolution branch of the event loop: the contestantId is
matched against the declared side ids; otherwise the raise is prepared,
and the message f-string of the unknown-team branch reads
event_data["team_id"] first. -/
def resolveTeam (home_team_id away_team_id : String) (e : RawEvent) :
    Except PyError TeamRef :=
  if e.contestantId = home_team_id then .ok TeamRef.home
  else if e.contestantId = away_team_id then .ok TeamRef.away
  else
    match e.team_id with
    | none => .error (.keyError "team_id")
    | some tid => .error (.deserializationError ("Unknown team_id " ++ tid))

/-- The goal-timestamp override of the shot branch: for a scored goal
with qualifier slot 374 present, the generic relative timestamp is
replaced by the corrected instant parsed from that slot minus the
period start. -/
def shotTimestamp (raw_qualifiers : RawQualifiers) (e : RawEvent)
    (start_ts base_ts : ℤ) : Except PyError ℤ :=
  if e.type_id = EVENT_TYPE_SHOT_GOAL then
    match raw_qualifiers 374 with
    | some v =>
      match pyQualifierDate v with
      | .error err => .error err
      | .ok t => .ok (t - start_ts)
    | none => .ok base_ts
  else .ok base_ts

/-- The type-code dispatch chain of the event loop: selects the builder
for the record's type code and fills the kind-specific fields on top of
the shared generic kwargs. -/
def dispatchEvent (st' : DeserializerState) (base : Event) (e : RawEvent)
    (start_ts : ℤ) : Except PyError (DeserializerState × Option Event) :=
  if e.type_id = EVENT_TYPE_PASS then
    match _parse_pass e.qualifier e.outcome with
    | .error err => .error err
    | .ok pk =>
      .ok (st', some { base with
        kind := EventKind.passKind,
        result := some (ResultVal.passR pk.result),
        receiver_coordinates := pk.receiver_coordinates,
        qualifiers := some pk.qualifiers })
  else if e.type_id = EVENT_TYPE_OFFSIDE_PASS then
    match _parse_offside_pass e.qualifier with
    | .error err => .error err
    | .ok pk =>
      .ok (st', some { base with
        kind := EventKind.passKind,
        result := some (ResultVal.passR pk.result),
        receiver_coordinates := pk.receiver_coordinates,
        qualifiers := some pk.qualifiers })
  else if e.type_id = EVENT_TYPE_TAKE_ON then
    .ok (st', some { base with
      kind := EventKind.takeOn,
      result := some (ResultVal.takeOnR (_parse_take_on e.outcome)),
      qualifiers := none })
  else if [EVENT_TYPE_SHOT_MISS, EVENT_TYPE_SHOT_POST, EVENT_TYPE_SHOT_SAVED,
      EVENT_TYPE_SHOT_GOAL].contains e.type_id then
    match shotTimestamp e.qualifier e start_ts base.timestamp with
    | .error err => .error err
    | .ok ts =>
      let sk := _parse_shot e.qualifier e.type_id (Point.mk e.x e.y)
      .ok (st', some { base with
        kind := EventKind.shot,
        timestamp := ts,
        coordinates := some sk.coordinates,
        result := sk.result.map ResultVal.shotR,
        qualifiers := some sk.qualifiers })
  else if e.type_id = EVENT_TYPE_RECOVERY then
    .ok (st', some { base with
      kind := EventKind.recovery,
      result := none,
      qualifiers := none })
  else if e.type_id = EVENT_TYPE_FOUL_COMMITTED then
    .ok (st', some { base with
      kind := EventKind.foulCommitted,
      result := none,
      qualifiers := none })
  else if BALL_OUT_EVENTS.contains e.type_id then
    .ok (st', some { base with
      kind := EventKind.ballOut,
      ball_state := BallState.dead,
      result := none,
      qualifiers := none })
  else if e.type_id = EVENT_TYPE_FORMATION_CHANGE then
    match _parse_formation_change e.qualifier with
    | .error err => .error err
    | .ok formation =>
      .ok (st', some { base with
        kind := EventKind.formationChange,
        result := none,
        qualifiers := none,
        formation_type := some formation })
  else if e.type_id = EVENT_TYPE_CARD then
    let ck := _parse_card e.qualifier
    .ok (st', some { base with
      kind := EventKind.card,
      ball_state := BallState.dead,
      result := none,
      qualifiers := some ck.qualifiers,
      card_type := ck.card_type })
  else
    .ok (st', some { base with
      kind := EventKind.generic,
      result := none,
      qualifiers := none,
      event_name := some (_get_event_type_name e.type_id) })

/-- One iteration of the event loop of
`StatsPerformDeserializer.deserialize`: consumes one raw record and
produces the updated accumulators plus the built canonical event, if
any. Records whose period is unknown or not started are skipped;
period markers update the period list; everything else has its team
resolved, the possession accumulator conditionally updated, the shared
generic kwargs assembled, and is dispatched to a kind-specific
builder. -/
def spStep (home_team_id away_team_id : String) (st : DeserializerState)
    (e : RawEvent) : Except PyError (DeserializerState × Option Event) :=
  match findPeriod st.periods e.period_id with
  | none =>
    -- for/else fell through: skip the event, period does not match
    .ok (st, none)
  | some (i, period) =>
    if e.type_id = EVENT_TYPE_START_PERIOD then
      .ok ({ st with periods := st.periods.set i { period with start_timestamp := some e.timeStamp } }, none)
    else if e.type_id = EVENT_TYPE_END_PERIOD then
      .ok ({ st with periods := st.periods.set i { period with end_timestamp := some e.timeStamp } }, none)
    else
      match period.start_timestamp with
      | none =>
        -- not started yet
        .ok (st, none)
      | some start_ts =>
        match resolveTeam home_team_id away_team_id e with
        | .error err => .error err
        | .ok team =>
          let possession_team : Option TeamRef :=
            if BALL_OWNING_EVENTS.contains e.type_id then some team else st.possession_team
          let st' : DeserializerState := { st with possession_team := possession_team }
          let base : Event := {
            kind := EventKind.generic,
            period_id := e.period_id,
            timestamp := e.timeStamp - start_ts,
            ball_owning_team := possession_team,
            ball_state := BallState.alive,
            event_id := e.event_id,
            team := some team,
            player := e.playerId,
            coordinates := some (Point.mk e.x e.y),
            result := none,
            qualifiers := none }
          dispatchEvent st' base e start_ts

/-- The event loop of `StatsPerformDeserializer.deserialize` as a fold:
runs `spStep` over the record list, keeping the built events that pass
the externally supplied inclusion predicate (the external coordinate
transform is outside the embedded core). -/
def spRun (home_team_id away_team_id : String) (incl : Event → Bool) :
    DeserializerState → List RawEvent → Except PyError (DeserializerState × List Event)
  | st, [] => .ok (st, [])
  | st, e :: rest =>
    match spStep home_team_id away_team_id st e with
    | .error err => .error err
    | .ok (st', evOpt) =>
      match spRun home_team_id away_team_id incl st' rest with
      | .error err => .error err
      | .ok (stFin, events) =>
        match evOpt with
        | some ev =>
          if incl ev then .ok (stFin, ev :: events) else .ok (stFin, events)
        | none => .ok (stFin, events)

/-- `StatsPerformDeserializer.deserialize` after metadata parsing:
starts from the periods declared by the metadata document and a null
possession team. -/
def deserialize (home_team_id away_team_id : String) (incl : Event → Bool)
    (periods0 : List Period) (events : List RawEvent) :
    Except PyError (DeserializerState × List Event) :=
  spRun home_team_id away_team_id incl ⟨periods0, none⟩ events

end StatsPerform

namespace Uefa

def EVENT_TYPE_START_PERIOD : String := "START_PHASE"

def EVENT_TYPE_END_PERIOD : String := "END_PHASE"

def EVENT_TYPE_SHOT_WIDE : String := "SHOT_WIDE"

def PHASE_TO_PERIOD : List (String × ℤ) := [("FIRST_HALF", 1), ("SECOND_HALF", 2)]

def BALL_OWNING_EVENTS : List String := [EVENT_TYPE_SHOT_WIDE]

/-- One record of the UEFA events document, with the fields the
deserializer consumes read off the JSON dict. A none timestamp models a
missing "timestamp" key (the KeyError is caught and the record
skipped). team_id and person_id are the optional
primaryActor.team.id and primaryActor.person.id; fieldPosition the
optional coordinate pair. -/
structure RawEvent where
  id : String
  phase : String
  type_id : String
  timestamp : Option ℤ
  team_id : Option String := none
  person_id : Option String := none
  fieldPosition : Option Point := none

/-- Python `PHASE_TO_PERIOD[phase]`: KeyError on an unknown phase. -/
def phaseLookup (phase : String) : Except PyError ℤ :=
  match PHASE_TO_PERIOD.lookup phase with
  | some n => .ok n
  | none => .error (.keyError phase)

/-- Python `periods[i]` for the nonnegative index
`PHASE_TO_PERIOD[phase] - 1`: IndexError when the list is too short. -/
def listIndex (periods : List Period) (i : ℤ) : Except PyError Period :=
  if h : 0 ≤ i ∧ i.toNat < periods.length then .ok (periods.get ⟨i.toNat, h.2⟩)
  else .error .indexError

/-- One iteration of the event loop of `UefaDeserializer.deserialize`
(which traverses the reversed record list): consumes one record and
produces the updated period list plus the built canonical event, if
any. -/
def uefaStep (home_team_id away_team_id : String) (periods : List Period)
    (e : RawEvent) : Except PyError (List Period × Option Event) :=
  match e.timestamp with
  | none =>
    -- KeyError on event_elm["timestamp"] is caught: warn and skip
    .ok (periods, none)
  | some ts =>
    if e.type_id = EVENT_TYPE_START_PERIOD then
      match phaseLookup e.phase with
      | .error err => .error err
      | .ok pid => .ok (periods ++ [⟨pid, some ts, none⟩], none)
    else if e.type_id = EVENT_TYPE_END_PERIOD then
      match phaseLookup e.phase with
      | .error err => .error err
      | .ok pid =>
        if h : 0 ≤ pid - 1 ∧ (pid - 1).toNat < periods.length then
          .ok (periods.set (pid - 1).toNat
            { periods.get ⟨(pid - 1).toNat, h.2⟩ with end_timestamp := some ts }, none)
        else .error .indexError
    else
      match phaseLookup e.phase with
      | .error err => .error err
      | .ok pid =>
        match listIndex periods (pid - 1) with
        | .error err => .error err
        | .ok period =>
          match (match e.team_id with
            | none => Except.ok (none : Option TeamRef)
            | some tid =>
              if tid = home_team_id then Except.ok (some TeamRef.home)
              else if tid = away_team_id then Except.ok (some TeamRef.away)
              else Except.error (PyError.deserializationError ("Unknown team_id " ++ tid))) with
          | .error err => .error err
          | .ok team =>
            match period.start_timestamp with
            | none => .error PyError.typeError
            | some s =>
              let player := if e.team_id.isSome then e.person_id else none
              let coordinates := e.fieldPosition
              -- possession_team is re-initialized to None for every record
              let possession_team : Option TeamRef :=
                if BALL_OWNING_EVENTS.contains e.type_id then team else none
              let base : Event := {
                kind := EventKind.generic,
                period_id := period.id,
                timestamp := ts - s,
                ball_owning_team := possession_team,
                ball_state := BallState.alive,
                event_id := e.id,
                team := team,
                player := player,
                coordinates := coordinates,
                result := none,
                qualifiers := none }
              if e.type_id = EVENT_TYPE_SHOT_WIDE then
                .ok (periods, some { base with
                  kind := EventKind.shot,
                  result := some (ResultVal.shotR ShotResult.offTarget) })
              else
                .ok (periods, some { base with
                  kind := EventKind.generic,
                  event_name := some e.type_id })

/-- The event loop of `UefaDeserializer.deserialize` as a fold over the
already-reversed record list. -/
def uefaRun (home_team_id away_team_id : String) (incl : Event → Bool) :
    List Period → List RawEvent → Except PyError (List Period × List Event)
  | periods, [] => .ok (periods, [])
  | periods, e :: rest =>
    match uefaStep home_team_id away_team_id periods e with
    | .error err => .error err
    | .ok (ps', evOpt) =>
      match uefaRun home_team_id away_team_id incl ps' rest with
      | .error err => .error err
      | .ok (psFin, events) =>
        match evOpt with
        | some ev =>
          if incl ev then .ok (psFin, ev :: events) else .ok (psFin, events)
        | none => .ok (psFin, events)

/-- `UefaDeserializer.deserialize` after lineup parsing: the period
list starts empty and the reverse-chronological events document is
traversed in reverse. -/
def deserialize (home_team_id away_team_id : String) (incl : Event → Bool)
    (event_data : List RawEvent) : Except PyError (List Period × List Event) :=
  uefaRun home_team_id away_team_id incl [] event_data.reverse

end Uefa

/-!
Spec-side reference definitions: the qualifier-chain precedence orders
exactly as the specification lists them, used to compare the source
chain functions against the spec (refinement-style, for the precedence
claim).
-/

/-- Modelled from the spec: the set-piece precedence order, corner →
free-kick (two raw codes alias to free-kick) → penalty → throw-in →
kick-off → goal-kick, as an ordered list of raw-code/canonical-tag
checks. -/
def setPieceOrderSpec : List (Nat × SetPieceType) :=
  [(StatsPerform.EVENT_QUALIFIER_CORNER_KICK, SetPieceType.cornerKick),
   (StatsPerform.EVENT_QUALIFIER_FREE_KICK, SetPieceType.freeKick),
   (StatsPerform.EVENT_QUALIFIER_FREE_KICK_SHOT, SetPieceType.freeKick),
   (StatsPerform.EVENT_QUALIFIER_PENALTY, SetPieceType.penalty),
   (StatsPerform.EVENT_QUALIFIER_THROW_IN, SetPieceType.throwIn),
   (StatsPerform.EVENT_QUALIFIER_KICK_OFF, SetPieceType.kickOff),
   (StatsPerform.EVENT_QUALIFIER_GOAL_KICK, SetPieceType.goalKick)]

/-- Modelled from the spec: the pass-subtype precedence order, cross →
long-ball → chipped → through-ball → launch → flick-on → primary-assist
→ secondary-assist. -/
def passSubtypeOrderSpec : List (Nat × PassType) :=
  [(StatsPerform.EVENT_QUALIFIER_CROSS, PassType.cross),
   (StatsPerform.EVENT_QUALIFIER_LONG_BALL, PassType.longBall),
   (StatsPerform.EVENT_QUALIFIER_CHIPPED_BALL, PassType.chippedPass),
   (StatsPerform.EVENT_QUALIFIER_THROUGH_BALL, PassType.throughBall),
   (StatsPerform.EVENT_QUALIFIER_LAUNCH, PassType.launch),
   (StatsPerform.EVENT_QUALIFIER_FLICK_ON, PassType.flickOn),
   (StatsPerform.EVENT_QUALIFIER_ASSIST, PassType.assist),
   (StatsPerform.EVENT_QUALIFIER_ASSIST_2ND, PassType.assist2nd)]

/-- First-match evaluation of a precedence order over a raw qualifier
mapping: the canonical tag of the first listed raw code present. -/
def firstMatch {α : Type} (order : List (Nat × α)) (raws : RawQualifiers) : Option α :=
  (order.find? (fun pc => (raws pc.1).isSome)).map (fun pc => pc.2)

/-!
Concrete fixtures for the closed witness and counterexample theorems.
-/

/-- An empty raw qualifier dict. -/
def noQualifiers : RawQualifiers := fun _ => none

/-- A raw qualifier dict holding exactly the given keys, null-valued. -/
def qualifiersOf (codes : List Nat) : RawQualifiers :=
  fun c => if codes.contains c then some RawVal.null else none

/-- A raw qualifier dict with receiver-coordinate slots 140/141 set to
(50, 50). -/
def receiverQualifiers : RawQualifiers :=
  fun c => if c = 140 then some (RawVal.num 50)
    else if c = 141 then some (RawVal.num 50) else none

/-- A StatsPerform metadata period list: period 1 started at instant
1000, period 2 not started. -/
def spPeriods : List Period := [⟨1, some 1000, none⟩, ⟨2, none, none⟩]

/-- The initial accumulator state over `spPeriods`: possession null. -/
def spState0 : StatsPerform.DeserializerState := ⟨spPeriods, none⟩

/-- A UEFA start-of-period marker record for the first half. -/
def uefaStartRec : Uefa.RawEvent :=
  { id := "u1", phase := "FIRST_HALF", type_id := "START_PHASE", timestamp := some 1000 }

/-- A UEFA possession-transferring record (shot wide) by the home team. -/
def uefaShotRec : Uefa.RawEvent :=
  { id := "u2", phase := "FIRST_HALF", type_id := "SHOT_WIDE", timestamp := some 1010,
    team_id := some "t1" }

/-- A UEFA non-transferring record (a duel) by the home team. -/
def uefaGenRec : Uefa.RawEvent :=
  { id := "u3", phase := "FIRST_HALF", type_id := "DUEL", timestamp := some 1020,
    team_id := some "t1" }

/-- A UEFA record whose team id matches neither declared side. -/
def uefaUnknownTeamRec : Uefa.RawEvent :=
  { id := "u9", phase := "FIRST_HALF", type_id := "DUEL", timestamp := some 1010,
    team_id := some "t9" }

/-- A StatsPerform complete pass record by the home team in period 1. -/
def spPassRec : StatsPerform.RawEvent :=
  { event_id := "e1", type_id := 1, timeStamp := 1005, period_id := 1,
    contestantId := "t1", x := 40, y := 60, outcome := 1, qualifier := receiverQualifiers }

/-- The accumulator state after a possession-transferring home event. -/
def spStateHome : StatsPerform.DeserializerState := ⟨spPeriods, some TeamRef.home⟩

/-- The canonical event built from `spPassRec`. -/
def spPassEvent : Event :=
  { kind := EventKind.passKind, period_id := 1, timestamp := 5,
    ball_owning_team := some TeamRef.home, ball_state := BallState.alive,
    event_id := "e1", team := some TeamRef.home, player := none,
    coordinates := some ⟨40, 60⟩,
    result := some (ResultVal.passR PassResult.complete),
    qualifiers := some [],
    receiver_coordinates := some ⟨50, 50⟩ }

/-- A StatsPerform scored-goal record whose qualifier slot 374 carries
the corrected instant 1490. -/
def spGoalRec : StatsPerform.RawEvent :=
  { event_id := "e2", type_id := 16, timeStamp := 1500, period_id := 1,
    contestantId := "t1", x := 90, y := 45, outcome := 1,
    qualifier := fun c => if c = 374 then some (RawVal.time 1490) else none }

/-- The canonical event built from `spGoalRec`: its relative timestamp
490 comes from the corrected instant 1490, not the record instant
1500. -/
def spGoalEvent : Event :=
  { kind := EventKind.shot, period_id := 1, timestamp := 490,
    ball_owning_team := some TeamRef.home, ball_state := BallState.alive,
    event_id := "e2", team := some TeamRef.home, player := none,
    coordinates := some ⟨90, 45⟩,
    result := some (ResultVal.shotR ShotResult.goal),
    qualifiers := some [] }

/-- A StatsPerform record referencing a period id with no tracked
period. -/
def spNoPeriodRec : StatsPerform.RawEvent :=
  { event_id := "e3", type_id := 4, timeStamp := 1200, period_id := 99,
    contestantId := "t1", x := 0, y := 0, outcome := 0, qualifier := noQualifiers }

/-- A StatsPerform record in period 2, whose start timestamp is still
null. -/
def spNotStartedRec : StatsPerform.RawEvent :=
  { event_id := "e4", type_id := 4, timeStamp := 1200, period_id := 2,
    contestantId := "t1", x := 0, y := 0, outcome := 0, qualifier := noQualifiers }

/-- A StatsPerform non-transferring record (a foul) by the home team. -/
def spFoulRec : StatsPerform.RawEvent :=
  { event_id := "e5", type_id := 4, timeStamp := 1100, period_id := 1,
    contestantId := "t1", x := 10, y := 20, outcome := 0, qualifier := noQualifiers }

/-- The canonical event built from `spFoulRec`. -/
def spFoulEvent : Event :=
  { kind := EventKind.foulCommitted, period_id := 1, timestamp := 100,
    ball_owning_team := none, ball_state := BallState.alive,
    event_id := "e5", team := some TeamRef.home, player := none,
    coordinates := some ⟨10, 20⟩, result := none, qualifiers := none }

/-- A StatsPerform record whose contestantId matches neither side and
whose JSON dict has no "team_id" key (per the MA3 schema). -/
def spUnknownTeamRec : StatsPerform.RawEvent :=
  { event_id := "e6", type_id := 1, timeStamp := 1100, period_id := 1,
    contestantId := "t9", x := 0, y := 0, outcome := 1, qualifier := receiverQualifiers }

/-- The same unknown-team record with a "team_id" key present. -/
def spUnknownTeamRecWithKey : StatsPerform.RawEvent :=
  { event_id := "e6", type_id := 1, timeStamp := 1100, period_id := 1,
    contestantId := "t9", team_id := some "t9", x := 0, y := 0, outcome := 1,
    qualifier := receiverQualifiers }

/-- A StatsPerform take-on record carrying the corner-kick raw
qualifier code 6. -/
def spTakeOnCornerRec : StatsPerform.RawEvent :=
  { event_id := "e7", type_id := 3, timeStamp := 1050, period_id := 1,
    contestantId := "t1", x := 30, y := 30, outcome := 1, qualifier := qualifiersOf [6] }

/-- The canonical event built from `spTakeOnCornerRec`. -/
def spTakeOnEvent : Event :=
  { kind := EventKind.takeOn, period_id := 1, timestamp := 50,
    ball_owning_team := some TeamRef.home, ball_state := BallState.alive,
    event_id := "e7", team := some TeamRef.home, player := none,
    coordinates := some ⟨30, 30⟩,
    result := some (ResultVal.takeOnR TakeOnResult.complete),
    qualifiers := none }

/-- A StatsPerform card record carrying the red-card raw qualifier
code 33. -/
def spCardRec : StatsPerform.RawEvent :=
  { event_id := "e8", type_id := 17, timeStamp := 1060, period_id := 1,
    contestantId := "t1", x := 0, y := 0, outcome := 0, qualifier := qualifiersOf [33] }

/-- A StatsPerform pass record whose qualifier dict lacks the receiver
slots 140 and 141. -/
def spPassNoSlotsRec : StatsPerform.RawEvent :=
  { event_id := "e9", type_id := 1, timeStamp := 1070, period_id := 1,
    contestantId := "t1", x := 0, y := 0, outcome := 1, qualifier := noQualifiers }

/-- The canonical event the UEFA deserializer builds from
`uefaShotRec` after `uefaStartRec` opened period 1 at instant 1000. -/
def uefaShotEvent : Event :=
  { kind := EventKind.shot, period_id := 1, timestamp := 10,
    ball_owning_team := some TeamRef.home, ball_state := BallState.alive,
    event_id := "u2", team := some TeamRef.home, player := none,
    coordinates := none,
    result := some (ResultVal.shotR ShotResult.offTarget),
    qualifiers := none }

end Kloppy

namespace Kloppy

/-!
Helper lemmas shared by the claim theorems.
-/

theorem okPairInj {ε α β : Type} {a b : α} {u v : β}
    (h : (Except.ok (a, u) : Except ε (α × β)) = Except.ok (b, v)) :
    a = b ∧ u = v := by
  injection h with h2
  injection h2 with h3 h4
  exact ⟨h3, h4⟩

theorem okNoneNeOkSome {ε α β : Type} {x y : α} {ev : β}
    (h : (Except.ok (x, (none : Option β)) : Except ε (α × Option β)) = Except.ok (y, some ev)) :
    False := by
  injection h with h2
  injection h2 with h3 h4
  exact Option.noConfusion h4

theorem okSomeInj {ε α β : Type} {a b : α} {u v : β}
    (h : (Except.ok (a, some u) : Except ε (α × Option β)) = Except.ok (b, some v)) :
    a = b ∧ u = v := by
  injection h with h2
  injection h2 with h3 h4
  exact ⟨h3, Option.some.inj h4⟩

theorem pyQualifierDate_ok {v : RawVal} {t : ℤ} (h : pyQualifierDate v = .ok t) :
    v = RawVal.time t := by
  cases v with
  | num q => exact absurd h (by simp [pyQualifierDate])
  | time t2 => exact congrArg RawVal.time (Except.ok.inj h)
  | null => exact absurd h (by simp [pyQualifierDate])

namespace StatsPerform

theorem _parse_pass_ok_qualifiers {raws : RawQualifiers} {outcome : ℤ} {pk : PassKwargs}
    (h : _parse_pass raws outcome = .ok pk) :
    pk.qualifiers = _get_event_qualifiers raws := by
  unfold _parse_pass at h
  split at h
  · exact Except.noConfusion h
  split at h
  · exact Except.noConfusion h
  split at h
  · exact Except.noConfusion h
  split at h
  · exact Except.noConfusion h
  injection h with h2
  rw [← h2]

theorem _parse_offside_pass_ok_qualifiers {raws : RawQualifiers} {pk : PassKwargs}
    (h : _parse_offside_pass raws = .ok pk) :
    pk.qualifiers = _get_event_qualifiers raws := by
  unfold _parse_offside_pass at h
  split at h
  · exact Except.noConfusion h
  split at h
  · exact Except.noConfusion h
  split at h
  · exact Except.noConfusion h
  split at h
  · exact Except.noConfusion h
  injection h with h2
  rw [← h2]

theorem shotTimestamp_ok {raws : RawQualifiers} {e : RawEvent} {start_ts base_ts ts : ℤ}
    (h : shotTimestamp raws e start_ts base_ts = .ok ts) :
    (e.type_id = EVENT_TYPE_SHOT_GOAL →
      ∀ v, raws 374 = some v → ∃ t374, v = RawVal.time t374) ∧
    ts = (if e.type_id = EVENT_TYPE_SHOT_GOAL then
        match raws 374 with
        | some (RawVal.time t374) => t374 - start_ts
        | _ => base_ts
      else base_ts) := by
  unfold shotTimestamp at h
  split at h
  next h16 =>
    split at h
    next v hv =>
      split at h
      · exact Except.noConfusion h
      next t hok =>
        injection h with h2
        have hvt := pyQualifierDate_ok hok
        subst hvt
        constructor
        · intro _ v' hv'
          rw [hv] at hv'
          exact ⟨t, (Option.some.inj hv').symm⟩
        · rw [if_pos h16, hv]
          exact h2.symm
    next hv =>
      injection h with h2
      constructor
      · intro _ v' hv'
        rw [hv] at hv'
        exact Option.noConfusion hv'
      · rw [if_pos h16, hv]
        exact h2.symm
  next h16 =>
    injection h with h2
    exact ⟨fun hg => absurd hg h16, by rw [if_neg h16]; exact h2.symm⟩

theorem dispatchEvent_ok {st' : DeserializerState} {base : Event} {e : RawEvent}
    {start_ts : ℤ} {st2 : DeserializerState} {ev : Event}
    (h : dispatchEvent st' base e start_ts = .ok (st2, some ev)) :
    st2 = st' ∧
    ev.team = base.team ∧
    ev.ball_owning_team = base.ball_owning_team ∧
    ev.period_id = base.period_id ∧
    ev.qualifiers =
      (if [EVENT_TYPE_PASS, EVENT_TYPE_OFFSIDE_PASS, EVENT_TYPE_SHOT_MISS, EVENT_TYPE_SHOT_POST,
          EVENT_TYPE_SHOT_SAVED, EVENT_TYPE_SHOT_GOAL, EVENT_TYPE_CARD].contains e.type_id
        then some (_get_event_qualifiers e.qualifier) else none) ∧
    (e.type_id = EVENT_TYPE_SHOT_GOAL →
      ∀ v, e.qualifier 374 = some v → ∃ t374, v = RawVal.time t374) ∧
    ev.timestamp =
      (if e.type_id = EVENT_TYPE_SHOT_GOAL then
        match e.qualifier 374 with
        | some (RawVal.time t374) => t374 - start_ts
        | _ => base.timestamp
      else base.timestamp) := by
  unfold dispatchEvent at h
  by_cases h1 : e.type_id = EVENT_TYPE_PASS
  · rw [if_pos h1] at h
    cases hpk : _parse_pass e.qualifier e.outcome with
    | error err => rw [hpk] at h; exact Except.noConfusion h
    | ok pk =>
      rw [hpk] at h
      obtain ⟨hst, hev⟩ := okSomeInj h
      subst hst; subst hev
      refine ⟨rfl, rfl, rfl, rfl, ?_, ?_, ?_⟩
      · rw [_parse_pass_ok_qualifiers hpk,
          if_pos (show ([EVENT_TYPE_PASS, EVENT_TYPE_OFFSIDE_PASS, EVENT_TYPE_SHOT_MISS,
            EVENT_TYPE_SHOT_POST, EVENT_TYPE_SHOT_SAVED, EVENT_TYPE_SHOT_GOAL,
            EVENT_TYPE_CARD].contains e.type_id) = true by rw [h1]; decide)]
      · intro hg
        rw [h1] at hg
        exact absurd hg (by decide)
      · rw [if_neg (show ¬(e.type_id = EVENT_TYPE_SHOT_GOAL) by rw [h1]; decide)]
  rw [if_neg h1] at h
  by_cases h2 : e.type_id = EVENT_TYPE_OFFSIDE_PASS
  · rw [if_pos h2] at h
    cases hpk : _parse_offside_pass e.qualifier with
    | error err => rw [hpk] at h; exact Except.noConfusion h
    | ok pk =>
      rw [hpk] at h
      obtain ⟨hst, hev⟩ := okSomeInj h
      subst hst; subst hev
      refine ⟨rfl, rfl, rfl, rfl, ?_, ?_, ?_⟩
      · rw [_parse_offside_pass_ok_qualifiers hpk,
          if_pos (show ([EVENT_TYPE_PASS, EVENT_TYPE_OFFSIDE_PASS, EVENT_TYPE_SHOT_MISS,
            EVENT_TYPE_SHOT_POST, EVENT_TYPE_SHOT_SAVED, EVENT_TYPE_SHOT_GOAL,
            EVENT_TYPE_CARD].contains e.type_id) = true by rw [h2]; decide)]
      · intro hg
        rw [h2] at hg
        exact absurd hg (by decide)
      · rw [if_neg (show ¬(e.type_id = EVENT_TYPE_SHOT_GOAL) by rw [h2]; decide)]
  rw [if_neg h2] at h
  by_cases h3 : e.type_id = EVENT_TYPE_TAKE_ON
  · rw [if_pos h3] at h
    obtain ⟨hst, hev⟩ := okSomeInj h
    subst hst; subst hev
    refine ⟨rfl, rfl, rfl, rfl, ?_, ?_, ?_⟩
    · rw [if_neg (show ¬(([EVENT_TYPE_PASS, EVENT_TYPE_OFFSIDE_PASS, EVENT_TYPE_SHOT_MISS,
        EVENT_TYPE_SHOT_POST, EVENT_TYPE_SHOT_SAVED, EVENT_TYPE_SHOT_GOAL,
        EVENT_TYPE_CARD].contains e.type_id) = true) by rw [h3]; decide)]
    · intro hg
      rw [h3] at hg
      exact absurd hg (by decide)
    · rw [if_neg (show ¬(e.type_id = EVENT_TYPE_SHOT_GOAL) by rw [h3]; decide)]
  rw [if_neg h3] at h
  by_cases h4 : ([EVENT_TYPE_SHOT_MISS, EVENT_TYPE_SHOT_POST, EVENT_TYPE_SHOT_SAVED,
      EVENT_TYPE_SHOT_GOAL].contains e.type_id) = true
  · rw [if_pos h4] at h
    cases hts : shotTimestamp e.qualifier e start_ts base.timestamp with
    | error err => rw [hts] at h; exact Except.noConfusion h
    | ok ts =>
      rw [hts] at h
      obtain ⟨hst, hev⟩ := okSomeInj h
      subst hst; subst hev
      refine ⟨rfl, rfl, rfl, rfl, ?_, (shotTimestamp_ok hts).1, (shotTimestamp_ok hts).2⟩
      have hm : e.type_id = 13 ∨ e.type_id = 14 ∨ e.type_id = 15 ∨ e.type_id = 16 := by
        have hmem := (by simpa using h4 :
          e.type_id ∈ [EVENT_TYPE_SHOT_MISS, EVENT_TYPE_SHOT_POST, EVENT_TYPE_SHOT_SAVED,
            EVENT_TYPE_SHOT_GOAL])
        simpa [EVENT_TYPE_SHOT_MISS, EVENT_TYPE_SHOT_POST, EVENT_TYPE_SHOT_SAVED,
          EVENT_TYPE_SHOT_GOAL] using hmem
      have hq : (_parse_shot e.qualifier e.type_id (Point.mk e.x e.y)).qualifiers
          = _get_event_qualifiers e.qualifier := rfl
      rw [hq, if_pos (show ([EVENT_TYPE_PASS, EVENT_TYPE_OFFSIDE_PASS, EVENT_TYPE_SHOT_MISS,
        EVENT_TYPE_SHOT_POST, EVENT_TYPE_SHOT_SAVED, EVENT_TYPE_SHOT_GOAL,
        EVENT_TYPE_CARD].contains e.type_id) = true by
          rcases hm with h5 | h5 | h5 | h5 <;> rw [h5] <;> decide)]
  rw [if_neg h4] at h
  have hng : ¬(e.type_id = EVENT_TYPE_SHOT_GOAL) := by
    intro hg
    exact h4 (by rw [hg]; decide)
  by_cases h5 : e.type_id = EVENT_TYPE_RECOVERY
  · rw [if_pos h5] at h
    obtain ⟨hst, hev⟩ := okSomeInj h
    subst hst; subst hev
    refine ⟨rfl, rfl, rfl, rfl, ?_, fun hg => absurd hg hng, by rw [if_neg hng]⟩
    rw [if_neg (show ¬(([EVENT_TYPE_PASS, EVENT_TYPE_OFFSIDE_PASS, EVENT_TYPE_SHOT_MISS,
      EVENT_TYPE_SHOT_POST, EVENT_TYPE_SHOT_SAVED, EVENT_TYPE_SHOT_GOAL,
      EVENT_TYPE_CARD].contains e.type_id) = true) by rw [h5]; decide)]
  rw [if_neg h5] at h
  by_cases h6 : e.type_id = EVENT_TYPE_FOUL_COMMITTED
  · rw [if_pos h6] at h
    obtain ⟨hst, hev⟩ := okSomeInj h
    subst hst; subst hev
    refine ⟨rfl, rfl, rfl, rfl, ?_, fun hg => absurd hg hng, by rw [if_neg hng]⟩
    rw [if_neg (show ¬(([EVENT_TYPE_PASS, EVENT_TYPE_OFFSIDE_PASS, EVENT_TYPE_SHOT_MISS,
      EVENT_TYPE_SHOT_POST, EVENT_TYPE_SHOT_SAVED, EVENT_TYPE_SHOT_GOAL,
      EVENT_TYPE_CARD].contains e.type_id) = true) by rw [h6]; decide)]
  rw [if_neg h6] at h
  by_cases h7 : (BALL_OUT_EVENTS.contains e.type_id) = true
  · rw [if_pos h7] at h
    obtain ⟨hst, hev⟩ := okSomeInj h
    subst hst; subst hev
    have hm : e.type_id = 5 ∨ e.type_id = 6 := by
      have hmem := (by simpa using h7 : e.type_id ∈ BALL_OUT_EVENTS)
      simpa [BALL_OUT_EVENTS, EVENT_TYPE_BALL_OUT, EVENT_TYPE_CORNER_AWARDED] using hmem
    refine ⟨rfl, rfl, rfl, rfl, ?_, fun hg => absurd hg hng, by rw [if_neg hng]⟩
    rw [if_neg (show ¬(([EVENT_TYPE_PASS, EVENT_TYPE_OFFSIDE_PASS, EVENT_TYPE_SHOT_MISS,
      EVENT_TYPE_SHOT_POST, EVENT_TYPE_SHOT_SAVED, EVENT_TYPE_SHOT_GOAL,
      EVENT_TYPE_CARD].contains e.type_id) = true) by
        rcases hm with h8 | h8 <;> rw [h8] <;> decide)]
  rw [if_neg h7] at h
  by_cases h8 : e.type_id = EVENT_TYPE_FORMATION_CHANGE
  · rw [if_pos h8] at h
    cases hf : _parse_formation_change e.qualifier with
    | error err => rw [hf] at h; exact Except.noConfusion h
    | ok formation =>
      rw [hf] at h
      obtain ⟨hst, hev⟩ := okSomeInj h
      subst hst; subst hev
      refine ⟨rfl, rfl, rfl, rfl, ?_, fun hg => absurd hg hng, by rw [if_neg hng]⟩
      rw [if_neg (show ¬(([EVENT_TYPE_PASS, EVENT_TYPE_OFFSIDE_PASS, EVENT_TYPE_SHOT_MISS,
        EVENT_TYPE_SHOT_POST, EVENT_TYPE_SHOT_SAVED, EVENT_TYPE_SHOT_GOAL,
        EVENT_TYPE_CARD].contains e.type_id) = true) by rw [h8]; decide)]
  rw [if_neg h8] at h
  by_cases h9 : e.type_id = EVENT_TYPE_CARD
  · rw [if_pos h9] at h
    obtain ⟨hst, hev⟩ := okSomeInj h
    subst hst; subst hev
    refine ⟨rfl, rfl, rfl, rfl, ?_, fun hg => absurd hg hng, by rw [if_neg hng]⟩
    rw [if_pos (show ([EVENT_TYPE_PASS, EVENT_TYPE_OFFSIDE_PASS, EVENT_TYPE_SHOT_MISS,
      EVENT_TYPE_SHOT_POST, EVENT_TYPE_SHOT_SAVED, EVENT_TYPE_SHOT_GOAL,
      EVENT_TYPE_CARD].contains e.type_id) = true by rw [h9]; decide)]
    rfl
  rw [if_neg h9] at h
  obtain ⟨hst, hev⟩ := okSomeInj h
  subst hst; subst hev
  refine ⟨rfl, rfl, rfl, rfl, ?_, fun hg => absurd hg hng, by rw [if_neg hng]⟩
  rw [if_neg (show ¬(([EVENT_TYPE_PASS, EVENT_TYPE_OFFSIDE_PASS, EVENT_TYPE_SHOT_MISS,
    EVENT_TYPE_SHOT_POST, EVENT_TYPE_SHOT_SAVED, EVENT_TYPE_SHOT_GOAL,
    EVENT_TYPE_CARD].contains e.type_id) = true) by
      intro hc
      have hmem := (by simpa using hc :
        e.type_id ∈ [EVENT_TYPE_PASS, EVENT_TYPE_OFFSIDE_PASS, EVENT_TYPE_SHOT_MISS,
          EVENT_TYPE_SHOT_POST, EVENT_TYPE_SHOT_SAVED, EVENT_TYPE_SHOT_GOAL, EVENT_TYPE_CARD])
      have hd : e.type_id = EVENT_TYPE_PASS ∨ e.type_id = EVENT_TYPE_OFFSIDE_PASS
          ∨ e.type_id = EVENT_TYPE_SHOT_MISS ∨ e.type_id = EVENT_TYPE_SHOT_POST
          ∨ e.type_id = EVENT_TYPE_SHOT_SAVED ∨ e.type_id = EVENT_TYPE_SHOT_GOAL
          ∨ e.type_id = EVENT_TYPE_CARD := by simpa using hmem
      rcases hd with hx | hx | hx | hx | hx | hx | hx
      · exact h1 hx
      · exact h2 hx
      · exact h4 (by rw [hx]; decide)
      · exact h4 (by rw [hx]; decide)
      · exact h4 (by rw [hx]; decide)
      · exact h4 (by rw [hx]; decide)
      · exact h9 hx)]

end StatsPerform

end Kloppy

namespace Kloppy

namespace StatsPerform

theorem spStep_built {home away : String} {st st' : DeserializerState} {e : RawEvent}
    {ev : Event} (h : spStep home away st e = .ok (st', some ev)) :
    ∃ i p s t,
      findPeriod st.periods e.period_id = some (i, p) ∧
      p.start_timestamp = some s ∧
      st'.periods = st.periods ∧
      ev.team = some t ∧
      st'.possession_team =
        (if BALL_OWNING_EVENTS.contains e.type_id then some t else st.possession_team) ∧
      ev.ball_owning_team = st'.possession_team ∧
      ev.period_id = e.period_id ∧
      ev.qualifiers =
        (if [EVENT_TYPE_PASS, EVENT_TYPE_OFFSIDE_PASS, EVENT_TYPE_SHOT_MISS, EVENT_TYPE_SHOT_POST,
            EVENT_TYPE_SHOT_SAVED, EVENT_TYPE_SHOT_GOAL, EVENT_TYPE_CARD].contains e.type_id
          then some (_get_event_qualifiers e.qualifier) else none) ∧
      (e.type_id = EVENT_TYPE_SHOT_GOAL →
        ∀ v, e.qualifier 374 = some v → ∃ t374, v = RawVal.time t374) ∧
      ev.timestamp =
        (if e.type_id = EVENT_TYPE_SHOT_GOAL then
          match e.qualifier 374 with
          | some (RawVal.time t374) => t374 - s
          | _ => e.timeStamp - s
        else e.timeStamp - s) := by
  unfold spStep at h
  split at h
  · exact (okNoneNeOkSome h).elim
  next i period hfp =>
    split at h
    · exact (okNoneNeOkSome h).elim
    next h32 =>
      split at h
      · exact (okNoneNeOkSome h).elim
      next h30 =>
        split at h
        · exact (okNoneNeOkSome h).elim
        next start_ts hstart =>
          split at h
          · exact Except.noConfusion h
          next team hteam =>
            obtain ⟨hst2, hteamEv, hball, hper, hqual, h374, hts⟩ := dispatchEvent_ok h
            subst hst2
            exact ⟨i, period, start_ts, team, hfp, hstart, rfl, hteamEv, rfl,
              hball, hper, hqual, h374, hts⟩

end StatsPerform

end Kloppy

namespace Kloppy

namespace StatsPerform

theorem dispatchEvent_isSome {st' : DeserializerState} {base : Event} {e : RawEvent}
    {start_ts : ℤ} {st2 : DeserializerState} {o : Option Event}
    (h : dispatchEvent st' base e start_ts = .ok (st2, o)) : ∃ x, o = some x := by
  unfold dispatchEvent at h
  by_cases h1 : e.type_id = EVENT_TYPE_PASS
  · rw [if_pos h1] at h
    cases hpk : _parse_pass e.qualifier e.outcome with
    | error err => rw [hpk] at h; exact Except.noConfusion h
    | ok pk =>
      rw [hpk] at h
      exact ⟨_, (okPairInj h).2.symm⟩
  rw [if_neg h1] at h
  by_cases h2 : e.type_id = EVENT_TYPE_OFFSIDE_PASS
  · rw [if_pos h2] at h
    cases hpk : _parse_offside_pass e.qualifier with
    | error err => rw [hpk] at h; exact Except.noConfusion h
    | ok pk =>
      rw [hpk] at h
      exact ⟨_, (okPairInj h).2.symm⟩
  rw [if_neg h2] at h
  by_cases h3 : e.type_id = EVENT_TYPE_TAKE_ON
  · rw [if_pos h3] at h
    exact ⟨_, (okPairInj h).2.symm⟩
  rw [if_neg h3] at h
  by_cases h4 : ([EVENT_TYPE_SHOT_MISS, EVENT_TYPE_SHOT_POST, EVENT_TYPE_SHOT_SAVED,
      EVENT_TYPE_SHOT_GOAL].contains e.type_id) = true
  · rw [if_pos h4] at h
    cases hts : shotTimestamp e.qualifier e start_ts base.timestamp with
    | error err => rw [hts] at h; exact Except.noConfusion h
    | ok ts =>
      rw [hts] at h
      exact ⟨_, (okPairInj h).2.symm⟩
  rw [if_neg h4] at h
  by_cases h5 : e.type_id = EVENT_TYPE_RECOVERY
  · rw [if_pos h5] at h
    exact ⟨_, (okPairInj h).2.symm⟩
  rw [if_neg h5] at h
  by_cases h6 : e.type_id = EVENT_TYPE_FOUL_COMMITTED
  · rw [if_pos h6] at h
    exact ⟨_, (okPairInj h).2.symm⟩
  rw [if_neg h6] at h
  by_cases h7 : (BALL_OUT_EVENTS.contains e.type_id) = true
  · rw [if_pos h7] at h
    exact ⟨_, (okPairInj h).2.symm⟩
  rw [if_neg h7] at h
  by_cases h8 : e.type_id = EVENT_TYPE_FORMATION_CHANGE
  · rw [if_pos h8] at h
    cases hf : _parse_formation_change e.qualifier with
    | error err => rw [hf] at h; exact Except.noConfusion h
    | ok formation =>
      rw [hf] at h
      exact ⟨_, (okPairInj h).2.symm⟩
  rw [if_neg h8] at h
  by_cases h9 : e.type_id = EVENT_TYPE_CARD
  · rw [if_pos h9] at h
    exact ⟨_, (okPairInj h).2.symm⟩
  rw [if_neg h9] at h
  exact ⟨_, (okPairInj h).2.symm⟩

theorem spStep_none_possession {home away : String} {st st' : DeserializerState} {e : RawEvent}
    (h : spStep home away st e = .ok (st', none)) :
    st'.possession_team = st.possession_team := by
  unfold spStep at h
  split at h
  · rw [← (okPairInj h).1]
  next i period hfp =>
    split at h
    · rw [← (okPairInj h).1]
    next h32 =>
      split at h
      · rw [← (okPairInj h).1]
      next h30 =>
        split at h
        · rw [← (okPairInj h).1]
        next start_ts hstart =>
          split at h
          · exact Except.noConfusion h
          next team hteam =>
            obtain ⟨x, hx⟩ := dispatchEvent_isSome h
            exact Option.noConfusion hx

theorem spStep_no_period {home away : String} {st : DeserializerState} {e : RawEvent}
    (h : findPeriod st.periods e.period_id = none) :
    spStep home away st e = .ok (st, none) := by
  unfold spStep
  rw [h]

theorem spStep_not_started {home away : String} {st : DeserializerState} {e : RawEvent}
    {i : Nat} {p : Period}
    (hfp : findPeriod st.periods e.period_id = some (i, p))
    (hstart : p.start_timestamp = none)
    (h32 : ¬(e.type_id = EVENT_TYPE_START_PERIOD))
    (h30 : ¬(e.type_id = EVENT_TYPE_END_PERIOD)) :
    spStep home away st e = .ok (st, none) := by
  unfold spStep
  simp only [hfp]
  rw [if_neg h32, if_neg h30, hstart]

theorem spRun_error {home away : String} {incl : Event → Bool} {st : DeserializerState}
    {e : RawEvent} {rest : List RawEvent} {err : PyError}
    (h : spStep home away st e = .error err) :
    spRun home away incl st (e :: rest) = .error err := by
  simp only [spRun, h]

theorem spRun_skip {home away : String} {incl : Event → Bool} {st : DeserializerState}
    {e : RawEvent} {rest : List RawEvent}
    (h : spStep home away st e = .ok (st, none)) :
    spRun home away incl st (e :: rest) = spRun home away incl st rest := by
  cases hr : spRun home away incl st rest with
  | error err => simp only [spRun, h, hr]
  | ok p =>
    cases p with
    | mk stF evs => simp only [spRun, h, hr]

theorem spRun_no_transfer {home away : String} {incl : Event → Bool} :
    ∀ (events : List RawEvent) (st stF : DeserializerState) (evs : List Event),
      (∀ e ∈ events, (BALL_OWNING_EVENTS.contains e.type_id) = false) →
      spRun home away incl st events = .ok (stF, evs) →
      st.possession_team = none →
      (∀ ev ∈ evs, ev.ball_owning_team = none) ∧ stF.possession_team = none := by
  intro events
  induction events with
  | nil =>
    intro st stF evs hall h hpos
    obtain ⟨h1, h2⟩ := okPairInj h
    subst h1
    rw [← h2]
    exact ⟨fun ev hm => absurd hm (List.not_mem_nil ev), hpos⟩
  | cons e rest ih =>
    intro st stF evs hall h hpos
    simp only [spRun] at h
    cases hstep : spStep home away st e with
    | error err => rw [hstep] at h; exact Except.noConfusion h
    | ok p =>
      obtain ⟨st', evOpt⟩ := p
      simp only [hstep] at h
      cases hr : spRun home away incl st' rest with
      | error err => rw [hr] at h; exact Except.noConfusion h
      | ok pr =>
        obtain ⟨stF', evs'⟩ := pr
        simp only [hr] at h
        cases evOpt with
        | none =>
          obtain ⟨h1, h2⟩ := okPairInj h
          have hpos' : st'.possession_team = none :=
            (spStep_none_possession hstep).trans hpos
          have := ih st' stF' evs' (fun x hx => hall x (List.mem_cons_of_mem e hx)) hr hpos'
          subst h1
          rw [← h2]
          exact this
        | some ev =>
          dsimp only at h
          obtain ⟨_, _, _, t, _, _, _, _, hposs, hball, _, _, _, _⟩ := spStep_built hstep
          have hposn : st'.possession_team = none := by
            rw [hposs, if_neg (by rw [hall e (List.mem_cons_self e rest)]; exact Bool.false_ne_true),
              hpos]
          have hballn : ev.ball_owning_team = none := hball.trans hposn
          have hrest := ih st' stF' evs' (fun x hx => hall x (List.mem_cons_of_mem e hx)) hr hposn
          by_cases hincl : incl ev = true
          · rw [if_pos hincl] at h
            obtain ⟨h1, h2⟩ := okPairInj h
            subst h1
            rw [← h2]
            refine ⟨?_, hrest.2⟩
            intro ev' hm
            rcases List.mem_cons.mp hm with hh | hh
            · rw [hh]; exact hballn
            · exact hrest.1 ev' hh
          · rw [if_neg hincl] at h
            obtain ⟨h1, h2⟩ := okPairInj h
            subst h1
            rw [← h2]
            exact hrest

end StatsPerform

end Kloppy

namespace Kloppy

namespace Uefa

theorem uefaStep_built {home away : String} {periods ps' : List Period} {e : RawEvent}
    {ev : Event} (h : uefaStep home away periods e = .ok (ps', some ev)) :
    ev.ball_owning_team =
      (if BALL_OWNING_EVENTS.contains e.type_id then ev.team else none) := by
  unfold uefaStep at h
  split at h
  · exact (okNoneNeOkSome h).elim
  next ts hts =>
    split at h
    next hstart =>
      split at h
      · exact Except.noConfusion h
      · exact (okNoneNeOkSome h).elim
    next hstart =>
      split at h
      next hend =>
        split at h
        · exact Except.noConfusion h
        next pid hpl =>
          split at h
          · exact (okNoneNeOkSome h).elim
          · exact Except.noConfusion h
      next hend =>
        split at h
        · exact Except.noConfusion h
        next pid hpl =>
          split at h
          · exact Except.noConfusion h
          next period hli =>
            split at h
            · exact Except.noConfusion h
            next team hteam =>
              split at h
              · exact Except.noConfusion h
              next s hs =>
                dsimp only at h
                by_cases hshot : e.type_id = EVENT_TYPE_SHOT_WIDE
                · rw [if_pos hshot] at h
                  obtain ⟨h1, hev⟩ := okSomeInj h
                  subst hev
                  rfl
                · rw [if_neg hshot] at h
                  obtain ⟨h1, hev⟩ := okSomeInj h
                  subst hev
                  rfl

theorem uefaStep_no_period {home away : String} {periods : List Period} {e : RawEvent}
    {ts : ℤ} {pid : ℤ}
    (hts : e.timestamp = some ts)
    (h1 : ¬(e.type_id = EVENT_TYPE_START_PERIOD))
    (h2 : ¬(e.type_id = EVENT_TYPE_END_PERIOD))
    (hpl : phaseLookup e.phase = .ok pid)
    (hlen : ¬(0 ≤ pid - 1 ∧ (pid - 1).toNat < periods.length)) :
    uefaStep home away periods e = .error .indexError := by
  unfold uefaStep
  simp only [hts]
  rw [if_neg h1, if_neg h2]
  simp only [hpl, listIndex, dif_neg hlen]

theorem uefaRun_error {home away : String} {incl : Event → Bool} {periods : List Period}
    {e : RawEvent} {rest : List RawEvent} {err : PyError}
    (h : uefaStep home away periods e = .error err) :
    uefaRun home away incl periods (e :: rest) = .error err := by
  simp only [uefaRun, h]

end Uefa

end Kloppy

namespace Kloppy

/-- C6: each qualifier chain attaches at most one qualifier, the first
matching raw code in the chain order winning: the set-piece chain
equals first-match evaluation of the order corner → free-kick (codes 5
and 26 both alias to free-kick) → penalty → throw-in → kick-off →
goal-kick, and the pass-subtype chain equals first-match evaluation of
cross → long-ball → chipped → through-ball → launch → flick-on →
primary-assist → secondary-assist. -/
theorem C6_chain_precedence (raws : RawQualifiers) :
    StatsPerform._get_event_setpiece_qualifiers raws =
      (match firstMatch setPieceOrderSpec raws with
       | some tag => [Qualifier.setPiece tag]
       | none => []) ∧
    StatsPerform._get_event_pass_qualifiers raws =
      (match firstMatch passSubtypeOrderSpec raws with
       | some tag => [Qualifier.passType tag]
       | none => []) := by
  constructor
  · unfold StatsPerform._get_event_setpiece_qualifiers firstMatch setPieceOrderSpec
      StatsPerform.qualifierPresent
    by_cases h6 : (raws StatsPerform.EVENT_QUALIFIER_CORNER_KICK).isSome = true
    · simp [List.find?, h6]
    by_cases h5 : (raws StatsPerform.EVENT_QUALIFIER_FREE_KICK).isSome = true
    · simp [List.find?, h6, h5]
    by_cases h26 : (raws StatsPerform.EVENT_QUALIFIER_FREE_KICK_SHOT).isSome = true
    · simp [List.find?, h6, h5, h26]
    by_cases h9 : (raws StatsPerform.EVENT_QUALIFIER_PENALTY).isSome = true
    · simp [List.find?, h6, h5, h26, h9]
    by_cases h107 : (raws StatsPerform.EVENT_QUALIFIER_THROW_IN).isSome = true
    · simp [List.find?, h6, h5, h26, h9, h107]
    by_cases h279 : (raws StatsPerform.EVENT_QUALIFIER_KICK_OFF).isSome = true
    · simp [List.find?, h6, h5, h26, h9, h107, h279]
    by_cases h124 : (raws StatsPerform.EVENT_QUALIFIER_GOAL_KICK).isSome = true
    · simp [List.find?, h6, h5, h26, h9, h107, h279, h124]
    simp [List.find?, h6, h5, h26, h9, h107, h279, h124]
  · unfold StatsPerform._get_event_pass_qualifiers firstMatch passSubtypeOrderSpec
      StatsPerform.qualifierPresent
    by_cases h2 : (raws StatsPerform.EVENT_QUALIFIER_CROSS).isSome = true
    · simp [List.find?, h2]
    by_cases h1 : (raws StatsPerform.EVENT_QUALIFIER_LONG_BALL).isSome = true
    · simp [List.find?, h2, h1]
    by_cases h155 : (raws StatsPerform.EVENT_QUALIFIER_CHIPPED_BALL).isSome = true
    · simp [List.find?, h2, h1, h155]
    by_cases h4 : (raws StatsPerform.EVENT_QUALIFIER_THROUGH_BALL).isSome = true
    · simp [List.find?, h2, h1, h155, h4]
    by_cases h157 : (raws StatsPerform.EVENT_QUALIFIER_LAUNCH).isSome = true
    · simp [List.find?, h2, h1, h155, h4, h157]
    by_cases h168 : (raws StatsPerform.EVENT_QUALIFIER_FLICK_ON).isSome = true
    · simp [List.find?, h2, h1, h155, h4, h157, h168]
    by_cases h210 : (raws StatsPerform.EVENT_QUALIFIER_ASSIST).isSome = true
    · simp [List.find?, h2, h1, h155, h4, h157, h168, h210]
    by_cases h218 : (raws StatsPerform.EVENT_QUALIFIER_ASSIST_2ND).isSome = true
    · simp [List.find?, h2, h1, h155, h4, h157, h168, h210, h218]
    simp [List.find?, h2, h1, h155, h4, h157, h168, h210, h218]

end Kloppy

namespace Kloppy

/-- C7: a scored goal with the own-goal raw flag (code 28) yields a
shot with result OWN_GOAL and coordinates point-mirrored through the
pitch center (100−x, 100−y); a scored goal without it yields GOAL with
unchanged coordinates; non-goal shot kinds yield a null result; and
mirroring twice returns the original point. -/
theorem C7_shot_own_goal (raws : RawQualifiers) (type_id : ℤ) (c : Point) :
    (type_id = StatsPerform.EVENT_TYPE_SHOT_GOAL → (raws 28).isSome = true →
      StatsPerform._parse_shot raws type_id c =
        { coordinates := ⟨100 - c.x, 100 - c.y⟩, result := some ShotResult.ownGoal,
          qualifiers := StatsPerform._get_event_qualifiers raws }) ∧
    (type_id = StatsPerform.EVENT_TYPE_SHOT_GOAL → (raws 28).isSome = false →
      StatsPerform._parse_shot raws type_id c =
        { coordinates := c, result := some ShotResult.goal,
          qualifiers := StatsPerform._get_event_qualifiers raws }) ∧
    (¬(type_id = StatsPerform.EVENT_TYPE_SHOT_GOAL) →
      StatsPerform._parse_shot raws type_id c =
        { coordinates := c, result := none,
          qualifiers := StatsPerform._get_event_qualifiers raws }) ∧
    (type_id = StatsPerform.EVENT_TYPE_SHOT_GOAL → (raws 28).isSome = true →
      (StatsPerform._parse_shot raws type_id
        ((StatsPerform._parse_shot raws type_id c).coordinates)).coordinates = c) := by
  have own : ∀ c' : Point, type_id = StatsPerform.EVENT_TYPE_SHOT_GOAL →
      (raws 28).isSome = true →
      StatsPerform._parse_shot raws type_id c' =
        { coordinates := ⟨100 - c'.x, 100 - c'.y⟩, result := some ShotResult.ownGoal,
          qualifiers := StatsPerform._get_event_qualifiers raws } := by
    intro c' ht h28
    unfold StatsPerform._parse_shot StatsPerform.qualifierPresent
    rw [if_pos ht, if_pos h28]
  refine ⟨own c, ?_, ?_, ?_⟩
  · intro ht h28
    unfold StatsPerform._parse_shot StatsPerform.qualifierPresent
    rw [if_pos ht, if_neg (by simp [h28])]
  · intro ht
    unfold StatsPerform._parse_shot StatsPerform.qualifierPresent
    rw [if_neg ht]
  · intro ht h28
    obtain ⟨x, y⟩ := c
    rw [own ⟨x, y⟩ ht h28]
    dsimp only
    rw [own ⟨100 - x, 100 - y⟩ ht h28]
    dsimp only
    simp only [Point.mk.injEq]
    constructor <;> ring

/-- C7 witness: the spec scenario, a goal with the own-goal flag and
coordinates (90, 10) yields result OWN_GOAL at coordinates (10, 90). -/
theorem C7_shot_own_goal_witness :
    (qualifiersOf [28] 28).isSome = true ∧
    StatsPerform._parse_shot (qualifiersOf [28]) StatsPerform.EVENT_TYPE_SHOT_GOAL ⟨90, 10⟩ =
      { coordinates := ⟨10, 90⟩, result := some ShotResult.ownGoal,
        qualifiers := StatsPerform._get_event_qualifiers (qualifiersOf [28]) } := by
  refine ⟨rfl, ?_⟩
  have h := (C7_shot_own_goal (qualifiersOf [28]) StatsPerform.EVENT_TYPE_SHOT_GOAL ⟨90, 10⟩).1
    rfl rfl
  rw [h]
  simp only [StatsPerform.ShotKwargs.mk.injEq, Point.mk.injEq]
  norm_num

/-- C8: a pass has result COMPLETE exactly when the outcome flag is
non-zero and INCOMPLETE when zero, and its receiver coordinates are
always read from raw qualifier slots 140 and 141, regardless of
outcome; an offside pass is always OFFSIDE with the receiver
coordinates read from the same slots. -/
theorem C8_pass_results (raws : RawQualifiers) (outcome : ℤ) (qx qy : ℚ)
    (h140 : raws 140 = some (RawVal.num qx)) (h141 : raws 141 = some (RawVal.num qy)) :
    StatsPerform._parse_pass raws outcome =
      .ok { result := if outcome ≠ 0 then PassResult.complete else PassResult.incomplete,
            receiver_coordinates := some ⟨qx, qy⟩, receiver_player := none,
            receive_timestamp := none,
            qualifiers := StatsPerform._get_event_qualifiers raws } ∧
    StatsPerform._parse_offside_pass raws =
      .ok { result := PassResult.offside, receiver_coordinates := some ⟨qx, qy⟩,
            receiver_player := none, receive_timestamp := none,
            qualifiers := StatsPerform._get_event_qualifiers raws } := by
  constructor
  · simp [StatsPerform._parse_pass, dictGetItem, h140, h141, pyFloat]
  · simp [StatsPerform._parse_offside_pass, dictGetItem, h140, h141, pyFloat]

/-- C8 witness: a complete and an offside pass with slots 140/141 both
50 produce receiver coordinates (50, 50). -/
theorem C8_pass_results_witness :
    StatsPerform._parse_pass receiverQualifiers 1 =
      .ok { result := if (1:ℤ) ≠ 0 then PassResult.complete else PassResult.incomplete,
            receiver_coordinates := some ⟨50, 50⟩, receiver_player := none,
            receive_timestamp := none,
            qualifiers := StatsPerform._get_event_qualifiers receiverQualifiers } ∧
    StatsPerform._parse_offside_pass receiverQualifiers =
      .ok { result := PassResult.offside, receiver_coordinates := some ⟨50, 50⟩,
            receiver_player := none, receive_timestamp := none,
            qualifiers := StatsPerform._get_event_qualifiers receiverQualifiers } :=
  C8_pass_results receiverQualifiers 1 50 50 rfl rfl

/-- C10: the receiver-coordinate extraction of the pass builders is a
guard-free dict lookup: a record lacking slot 140 makes both builders
raise KeyError 140; one with a numeric slot 140 but lacking slot 141
makes them raise KeyError 141; and a step error aborts the whole fold
with that error. -/
theorem C10_missing_receiver_slots (raws : RawQualifiers) (outcome : ℤ) :
    (raws 140 = none →
      StatsPerform._parse_pass raws outcome = .error (.keyError "140") ∧
      StatsPerform._parse_offside_pass raws = .error (.keyError "140")) ∧
    (∀ qx, raws 140 = some (RawVal.num qx) → raws 141 = none →
      StatsPerform._parse_pass raws outcome = .error (.keyError "141") ∧
      StatsPerform._parse_offside_pass raws = .error (.keyError "141")) ∧
    (∀ (home away : String) (incl : Event → Bool) (st : StatsPerform.DeserializerState)
        (e : StatsPerform.RawEvent) (rest : List StatsPerform.RawEvent) (err : PyError),
      StatsPerform.spStep home away st e = .error err →
      StatsPerform.spRun home away incl st (e :: rest) = .error err) := by
  refine ⟨?_, ?_, ?_⟩
  · intro h140
    constructor
    · simp only [StatsPerform._parse_pass, dictGetItem, h140]
      rfl
    · simp only [StatsPerform._parse_offside_pass, dictGetItem, h140]
      rfl
  · intro qx h140 h141
    constructor
    · simp only [StatsPerform._parse_pass, dictGetItem, h140, h141, pyFloat]
      rfl
    · simp only [StatsPerform._parse_offside_pass, dictGetItem, h140, h141, pyFloat]
      rfl
  · intro home away incl st e rest err h
    exact StatsPerform.spRun_error h

/-- C10 witness: with an empty qualifier dict both builders raise
KeyError 140, and the deserialization of a pass record with no
receiver slots aborts with that KeyError. -/
theorem C10_missing_receiver_slots_witness :
    (StatsPerform._parse_pass noQualifiers 1 = .error (.keyError "140") ∧
      StatsPerform._parse_offside_pass noQualifiers = .error (.keyError "140")) ∧
    StatsPerform.spRun "t1" "t2" (fun _ => true) spState0 [spPassNoSlotsRec] =
      .error (.keyError "140") :=
  ⟨(C10_missing_receiver_slots noQualifiers 1).1 rfl,
   (C10_missing_receiver_slots noQualifiers 1).2.2 "t1" "t2" (fun _ => true) spState0
     spPassNoSlotsRec [] (.keyError "140") (by rfl)⟩

/-- C9: every built event's relative timestamp is its absolute
timestamp minus the start timestamp of its matched period, except a
scored goal whose qualifier slot 374 is present, whose relative
timestamp is the corrected instant parsed from that slot minus the
period start (and on the success path a present slot 374 always holds
a parseable instant). -/
theorem C9_timestamps {home away : String} {st st' : StatsPerform.DeserializerState}
    {e : StatsPerform.RawEvent} {ev : Event}
    (h : StatsPerform.spStep home away st e = .ok (st', some ev)) :
    ∃ i p s, StatsPerform.findPeriod st.periods e.period_id = some (i, p) ∧
      p.start_timestamp = some s ∧
      (e.type_id = StatsPerform.EVENT_TYPE_SHOT_GOAL →
        ∀ v, e.qualifier 374 = some v → ∃ t374, v = RawVal.time t374) ∧
      ev.timestamp =
        (if e.type_id = StatsPerform.EVENT_TYPE_SHOT_GOAL then
          match e.qualifier 374 with
          | some (RawVal.time t374) => t374 - s
          | _ => e.timeStamp - s
        else e.timeStamp - s) := by
  obtain ⟨i, p, s, t, h1, h2, _, _, _, _, _, _, h374, hts⟩ := StatsPerform.spStep_built h
  exact ⟨i, p, s, h1, h2, h374, hts⟩

/-- C9 witness: a goal record at absolute instant 1500 in a period
started at 1000, with correction slot 374 holding the instant 1490,
is built with relative timestamp 490 = 1490 − 1000. -/
theorem C9_timestamps_witness :
    ∃ i p s, StatsPerform.findPeriod spState0.periods spGoalRec.period_id = some (i, p) ∧
      p.start_timestamp = some s ∧
      (spGoalRec.type_id = StatsPerform.EVENT_TYPE_SHOT_GOAL →
        ∀ v, spGoalRec.qualifier 374 = some v → ∃ t374, v = RawVal.time t374) ∧
      spGoalEvent.timestamp =
        (if spGoalRec.type_id = StatsPerform.EVENT_TYPE_SHOT_GOAL then
          match spGoalRec.qualifier 374 with
          | some (RawVal.time t374) => t374 - s
          | _ => spGoalRec.timeStamp - s
        else spGoalRec.timeStamp - s) :=
  C9_timestamps (show StatsPerform.spStep "t1" "t2" spState0 spGoalRec
    = .ok (spStateHome, some spGoalEvent) from rfl)

end Kloppy

namespace Kloppy

/-- C1 counterexample: in the UEFA deserializer, a feed with a start
marker, then a transferring shot-wide by the home team, then a
subsequent non-transferring event with no transferring event in
between (input in reverse chronological order, as the raw document),
yields a second built event whose ball_owning_team is null, not the
home team the claim requires it to have kept. -/
theorem C1_counterexample :
    (Uefa.deserialize "t1" "t2" (fun _ => true)
        [uefaGenRec, uefaShotRec, uefaStartRec]).toOption.map
      (fun r => r.2.map (fun ev => (ev.event_id, ev.ball_owning_team)))
      = some [("u2", some TeamRef.home), ("u3", none)] ∧
    Uefa.BALL_OWNING_EVENTS.contains uefaShotRec.type_id = true ∧
    Uefa.BALL_OWNING_EVENTS.contains uefaGenRec.type_id = false ∧
    (none : Option TeamRef) ≠ some TeamRef.home := by
  refine ⟨by rfl, by rfl, by rfl, by simp⟩

/-- C1 amended: in the StatsPerform deserializer the possession value
carried by the fold behaves exactly as the claim states: it starts
null, is set to the acting team exactly when a record whose type code
is in the possession-transferring set is processed, is left unchanged
by every other processed record, is attached to every built event, and
for a feed with no transferring records every emitted event has null
ball_owning_team. In the UEFA deserializer, however, the possession
value is re-initialized to null for every record, so each built
event's ball_owning_team is the acting team for transferring records
and null for all others, regardless of any earlier transferring
event. -/
theorem C1_amended_possession :
    (∀ (home away : String) (st st' : StatsPerform.DeserializerState)
        (e : StatsPerform.RawEvent) (ev : Event),
      StatsPerform.spStep home away st e = .ok (st', some ev) →
      ∃ t, ev.team = some t ∧
        st'.possession_team =
          (if StatsPerform.BALL_OWNING_EVENTS.contains e.type_id then some t
           else st.possession_team) ∧
        ev.ball_owning_team = st'.possession_team) ∧
    (∀ (home away : String) (st st' : StatsPerform.DeserializerState)
        (e : StatsPerform.RawEvent),
      StatsPerform.spStep home away st e = .ok (st', none) →
      st'.possession_team = st.possession_team) ∧
    (∀ (home away : String) (incl : Event → Bool) (periods0 : List Period)
        (events : List StatsPerform.RawEvent) (stF : StatsPerform.DeserializerState)
        (evs : List Event),
      (∀ e ∈ events, (StatsPerform.BALL_OWNING_EVENTS.contains e.type_id) = false) →
      StatsPerform.deserialize home away incl periods0 events = .ok (stF, evs) →
      ∀ ev ∈ evs, ev.ball_owning_team = none) ∧
    (∀ (home away : String) (periods ps' : List Period) (e : Uefa.RawEvent) (ev : Event),
      Uefa.uefaStep home away periods e = .ok (ps', some ev) →
      ev.ball_owning_team =
        (if Uefa.BALL_OWNING_EVENTS.contains e.type_id then ev.team else none)) := by
  refine ⟨?_, ?_, ?_, ?_⟩
  · intro home away st st' e ev h
    obtain ⟨_, _, _, t, _, _, _, hteam, hposs, hball, _, _, _, _⟩ := StatsPerform.spStep_built h
    exact ⟨t, hteam, hposs, hball⟩
  · intro home away st st' e h
    exact StatsPerform.spStep_none_possession h
  · intro home away incl periods0 events stF evs hall h
    exact (StatsPerform.spRun_no_transfer events ⟨periods0, none⟩ stF evs hall h rfl).1
  · intro home away periods ps' e ev h
    exact Uefa.uefaStep_built h

/-- C1 amended witness: the step lemmas applied to a concrete complete
pass (possession becomes home and is attached), a concrete skipped
record (possession unchanged), a one-record non-transferring feed
(null possession throughout), and a concrete UEFA shot-wide. -/
theorem C1_amended_possession_witness :
    (∃ t, spPassEvent.team = some t ∧
      spStateHome.possession_team =
        (if StatsPerform.BALL_OWNING_EVENTS.contains spPassRec.type_id then some t
         else spState0.possession_team) ∧
      spPassEvent.ball_owning_team = spStateHome.possession_team) ∧
    spState0.possession_team = spState0.possession_team ∧
    (∀ ev ∈ [spFoulEvent], ev.ball_owning_team = none) ∧
    uefaShotEvent.ball_owning_team =
      (if Uefa.BALL_OWNING_EVENTS.contains uefaShotRec.type_id then uefaShotEvent.team
       else none) :=
  ⟨C1_amended_possession.1 "t1" "t2" spState0 spStateHome spPassRec spPassEvent (by rfl),
   C1_amended_possession.2.1 "t1" "t2" spState0 spState0 spNoPeriodRec (by rfl),
   C1_amended_possession.2.2.1 "t1" "t2" (fun _ => true) spPeriods [spFoulRec]
     spState0 [spFoulEvent]
     (by
       intro e he
       rw [List.mem_singleton] at he
       subst he
       rfl)
     (by rfl),
   C1_amended_possession.2.2.2 "t1" "t2" [⟨1, some 1000, none⟩] [⟨1, some 1000, none⟩]
     uefaShotRec uefaShotEvent (by rfl)⟩

end Kloppy

namespace Kloppy

/-- C2 counterexample: in the UEFA deserializer a record whose phase
has no tracked period yet (no start marker seen) does not get skipped;
the whole call aborts with an uncaught IndexError. -/
theorem C2_counterexample :
    Uefa.deserialize "t1" "t2" (fun _ => true) [uefaGenRec] = .error PyError.indexError ∧
    (∀ periods evs, Uefa.deserialize "t1" "t2" (fun _ => true) [uefaGenRec]
      ≠ .ok (periods, evs)) := by
  refine ⟨by rfl, ?_⟩
  intro periods evs h
  rw [show Uefa.deserialize "t1" "t2" (fun _ => true) [uefaGenRec]
    = .error PyError.indexError from rfl] at h
  exact Except.noConfusion h

/-- C2 amended: in the StatsPerform deserializer a record whose period
id has no tracked period, or whose tracked period has a null start
timestamp (period markers aside), is skipped with no error and with
the accumulators unchanged, and the fold continues with the remaining
records; in the UEFA deserializer a non-marker record whose phase has
no tracked period aborts the call with an uncaught IndexError, which
propagates out of the fold. -/
theorem C2_amended_period_skip :
    (∀ (home away : String) (st : StatsPerform.DeserializerState)
        (e : StatsPerform.RawEvent),
      StatsPerform.findPeriod st.periods e.period_id = none →
      StatsPerform.spStep home away st e = .ok (st, none)) ∧
    (∀ (home away : String) (st : StatsPerform.DeserializerState)
        (e : StatsPerform.RawEvent) (i : Nat) (p : Period),
      StatsPerform.findPeriod st.periods e.period_id = some (i, p) →
      p.start_timestamp = none →
      ¬(e.type_id = StatsPerform.EVENT_TYPE_START_PERIOD) →
      ¬(e.type_id = StatsPerform.EVENT_TYPE_END_PERIOD) →
      StatsPerform.spStep home away st e = .ok (st, none)) ∧
    (∀ (home away : String) (incl : Event → Bool) (st : StatsPerform.DeserializerState)
        (e : StatsPerform.RawEvent) (rest : List StatsPerform.RawEvent),
      StatsPerform.spStep home away st e = .ok (st, none) →
      StatsPerform.spRun home away incl st (e :: rest) =
        StatsPerform.spRun home away incl st rest) ∧
    (∀ (home away : String) (periods : List Period) (e : Uefa.RawEvent) (ts pid : ℤ),
      e.timestamp = some ts →
      ¬(e.type_id = Uefa.EVENT_TYPE_START_PERIOD) →
      ¬(e.type_id = Uefa.EVENT_TYPE_END_PERIOD) →
      Uefa.phaseLookup e.phase = .ok pid →
      ¬(0 ≤ pid - 1 ∧ (pid - 1).toNat < periods.length) →
      Uefa.uefaStep home away periods e = .error .indexError) ∧
    (∀ (home away : String) (incl : Event → Bool) (periods : List Period)
        (e : Uefa.RawEvent) (rest : List Uefa.RawEvent) (err : PyError),
      Uefa.uefaStep home away periods e = .error err →
      Uefa.uefaRun home away incl periods (e :: rest) = .error err) := by
  refine ⟨?_, ?_, ?_, ?_, ?_⟩
  · intro home away st e h
    exact StatsPerform.spStep_no_period h
  · intro home away st e i p hfp hstart h32 h30
    exact StatsPerform.spStep_not_started hfp hstart h32 h30
  · intro home away incl st e rest h
    exact StatsPerform.spRun_skip h
  · intro home away periods e ts pid hts h1 h2 hpl hlen
    exact Uefa.uefaStep_no_period hts h1 h2 hpl hlen
  · intro home away incl periods e rest err h
    exact Uefa.uefaRun_error h

/-- C2 amended witness: a record for unknown period 99 and a record
for unstarted period 2 are both skipped with the state unchanged and
the fold continues; a UEFA record in the first half before any start
marker makes the step, and so the fold, abort with IndexError. -/
theorem C2_amended_period_skip_witness :
    StatsPerform.spStep "t1" "t2" spState0 spNoPeriodRec = .ok (spState0, none) ∧
    StatsPerform.spStep "t1" "t2" spState0 spNotStartedRec = .ok (spState0, none) ∧
    StatsPerform.spRun "t1" "t2" (fun _ => true) spState0 [spNoPeriodRec] =
      StatsPerform.spRun "t1" "t2" (fun _ => true) spState0 [] ∧
    Uefa.uefaStep "t1" "t2" [] uefaGenRec = .error .indexError ∧
    Uefa.uefaRun "t1" "t2" (fun _ => true) [] [uefaGenRec] = .error .indexError :=
  ⟨C2_amended_period_skip.1 "t1" "t2" spState0 spNoPeriodRec (by rfl),
   C2_amended_period_skip.2.1 "t1" "t2" spState0 spNotStartedRec 1 ⟨2, none, none⟩
     (by rfl) (by rfl) (by decide) (by decide),
   C2_amended_period_skip.2.2.1 "t1" "t2" (fun _ => true) spState0 spNoPeriodRec []
     (by rfl),
   C2_amended_period_skip.2.2.2.1 "t1" "t2" [] uefaGenRec 1020 1
     (by rfl) (by decide) (by decide) (by rfl) (by decide),
   C2_amended_period_skip.2.2.2.2 "t1" "t2" (fun _ => true) [] uefaGenRec []
     PyError.indexError (by rfl)⟩

/-- C3: a StatsPerform record whose contestantId matches neither side
makes the whole call fail, but not with the structured
DeserializationError the claim and spec require: the error message
f-string indexes the record dict with the key "team_id", which the MA3
schema does not define, so the call aborts with an uncaught KeyError
instead; only when the record happens to carry a "team_id" key does
the intended DeserializationError surface. The UEFA deserializer
raises the intended DeserializationError. -/
theorem C3_unknown_team_keyerror :
    StatsPerform.deserialize "t1" "t2" (fun _ => true) spPeriods [spUnknownTeamRec]
      = .error (.keyError "team_id") ∧
    StatsPerform.deserialize "t1" "t2" (fun _ => true) spPeriods [spUnknownTeamRecWithKey]
      = .error (.deserializationError "Unknown team_id t9") ∧
    Uefa.deserialize "t1" "t2" (fun _ => true) [uefaUnknownTeamRec, uefaStartRec]
      = .error (.deserializationError "Unknown team_id t9") := by
  refine ⟨by rfl, by rfl, by rfl⟩

/-- C4: the card builder always leaves card_type null: its severity
checks test membership of the raw integer codes in the list of
already-built canonical Qualifier objects, where the comparison of an
int with a Qualifier never succeeds, so the red-card chain position is
unreachable; at the same time the card-severity chain itself resolves
the same raw attributes to a red card, and the dispatcher does force
ball state DEAD on the built card event. -/
theorem C4_card_type_always_none :
    (∀ raws : RawQualifiers, (StatsPerform._parse_card raws).card_type = none) ∧
    (StatsPerform._parse_card (qualifiersOf [33])).card_type = none ∧
    StatsPerform._get_event_card_qualifiers (qualifiersOf [33]) =
      [Qualifier.card CardType.red] ∧
    (StatsPerform.deserialize "t1" "t2" (fun _ => true) spPeriods [spCardRec]).toOption.map
      (fun r => r.2.map (fun ev => (ev.ball_state, ev.card_type, ev.qualifiers)))
      = some [(BallState.dead, none, some [Qualifier.card CardType.red])] := by
  refine ⟨?_, by rfl, by rfl, by rfl⟩
  intro raws
  unfold StatsPerform._parse_card StatsPerform.intInQualifierList
  simp

end Kloppy

namespace Kloppy

/-- C5 counterexample: a take-on record carrying the corner-kick raw
code 6 — on which the chains would yield a set-piece corner qualifier
— is built with null qualifiers; the chains are not attached for
take-on events. -/
theorem C5_counterexample :
    StatsPerform._get_event_qualifiers (qualifiersOf [6]) =
      [Qualifier.setPiece SetPieceType.cornerKick] ∧
    (StatsPerform.deserialize "t1" "t2" (fun _ => true) spPeriods
        [spTakeOnCornerRec]).toOption.map
      (fun r => r.2.map (fun ev => (ev.kind, ev.qualifiers)))
      = some [(EventKind.takeOn, none)] ∧
    (none : Option (List Qualifier)) ≠
      some (StatsPerform._get_event_qualifiers (qualifiersOf [6])) := by
  refine ⟨by rfl, by rfl, by simp⟩

/-- C5 amended: the four qualifier chains are evaluated and attached
only for pass, offside-pass, shot and card events; take-on, foul,
out-of-play, formation-change, recovery and generic events are built
with null qualifiers. A chain whose raw codes are all absent
contributes no qualifier. -/
theorem C5_amended_qualifier_attachment :
    (∀ (home away : String) (st st' : StatsPerform.DeserializerState)
        (e : StatsPerform.RawEvent) (ev : Event),
      StatsPerform.spStep home away st e = .ok (st', some ev) →
      ev.qualifiers =
        (if [StatsPerform.EVENT_TYPE_PASS, StatsPerform.EVENT_TYPE_OFFSIDE_PASS,
            StatsPerform.EVENT_TYPE_SHOT_MISS, StatsPerform.EVENT_TYPE_SHOT_POST,
            StatsPerform.EVENT_TYPE_SHOT_SAVED, StatsPerform.EVENT_TYPE_SHOT_GOAL,
            StatsPerform.EVENT_TYPE_CARD].contains e.type_id
          then some (StatsPerform._get_event_qualifiers e.qualifier) else none)) ∧
    (∀ raws : RawQualifiers,
      (∀ c ∈ [StatsPerform.EVENT_QUALIFIER_CORNER_KICK, StatsPerform.EVENT_QUALIFIER_FREE_KICK,
          StatsPerform.EVENT_QUALIFIER_FREE_KICK_SHOT, StatsPerform.EVENT_QUALIFIER_PENALTY,
          StatsPerform.EVENT_QUALIFIER_THROW_IN, StatsPerform.EVENT_QUALIFIER_KICK_OFF,
          StatsPerform.EVENT_QUALIFIER_GOAL_KICK], raws c = none) →
      StatsPerform._get_event_setpiece_qualifiers raws = []) ∧
    (∀ raws : RawQualifiers,
      (∀ c ∈ [StatsPerform.EVENT_QUALIFIER_HEAD_PASS, StatsPerform.EVENT_QUALIFIER_HEAD,
          StatsPerform.EVENT_QUALIFIER_LEFT_FOOT, StatsPerform.EVENT_QUALIFIER_RIGHT_FOOT,
          StatsPerform.EVENT_QUALIFIER_OTHER_BODYPART], raws c = none) →
      StatsPerform._get_event_bodypart_qualifiers raws = []) ∧
    (∀ raws : RawQualifiers,
      (∀ c ∈ [StatsPerform.EVENT_QUALIFIER_CROSS, StatsPerform.EVENT_QUALIFIER_LONG_BALL,
          StatsPerform.EVENT_QUALIFIER_CHIPPED_BALL, StatsPerform.EVENT_QUALIFIER_THROUGH_BALL,
          StatsPerform.EVENT_QUALIFIER_LAUNCH, StatsPerform.EVENT_QUALIFIER_FLICK_ON,
          StatsPerform.EVENT_QUALIFIER_ASSIST, StatsPerform.EVENT_QUALIFIER_ASSIST_2ND],
        raws c = none) →
      StatsPerform._get_event_pass_qualifiers raws = []) ∧
    (∀ raws : RawQualifiers,
      (∀ c ∈ [StatsPerform.EVENT_QUALIFIER_RED_CARD,
          StatsPerform.EVENT_QUALIFIER_FIRST_YELLOW_CARD,
          StatsPerform.EVENT_QUALIFIER_SECOND_YELLOW_CARD], raws c = none) →
      StatsPerform._get_event_card_qualifiers raws = []) := by
  refine ⟨?_, ?_, ?_, ?_, ?_⟩
  · intro home away st st' e ev h
    obtain ⟨_, _, _, _, _, _, _, _, _, _, _, hqual, _, _⟩ := StatsPerform.spStep_built h
    exact hqual
  · intro raws hall
    unfold StatsPerform._get_event_setpiece_qualifiers StatsPerform.qualifierPresent
    simp [hall _ (by decide : StatsPerform.EVENT_QUALIFIER_CORNER_KICK ∈ _),
      hall _ (by decide : StatsPerform.EVENT_QUALIFIER_FREE_KICK ∈ _),
      hall _ (by decide : StatsPerform.EVENT_QUALIFIER_FREE_KICK_SHOT ∈ _),
      hall _ (by decide : StatsPerform.EVENT_QUALIFIER_PENALTY ∈ _),
      hall _ (by decide : StatsPerform.EVENT_QUALIFIER_THROW_IN ∈ _),
      hall _ (by decide : StatsPerform.EVENT_QUALIFIER_KICK_OFF ∈ _),
      hall _ (by decide : StatsPerform.EVENT_QUALIFIER_GOAL_KICK ∈ _)]
  · intro raws hall
    unfold StatsPerform._get_event_bodypart_qualifiers StatsPerform.qualifierPresent
    simp [hall _ (by decide : StatsPerform.EVENT_QUALIFIER_HEAD_PASS ∈ _),
      hall _ (by decide : StatsPerform.EVENT_QUALIFIER_HEAD ∈ _),
      hall _ (by decide : StatsPerform.EVENT_QUALIFIER_LEFT_FOOT ∈ _),
      hall _ (by decide : StatsPerform.EVENT_QUALIFIER_RIGHT_FOOT ∈ _),
      hall _ (by decide : StatsPerform.EVENT_QUALIFIER_OTHER_BODYPART ∈ _)]
  · intro raws hall
    unfold StatsPerform._get_event_pass_qualifiers StatsPerform.qualifierPresent
    simp [hall _ (by decide : StatsPerform.EVENT_QUALIFIER_CROSS ∈ _),
      hall _ (by decide : StatsPerform.EVENT_QUALIFIER_LONG_BALL ∈ _),
      hall _ (by decide : StatsPerform.EVENT_QUALIFIER_CHIPPED_BALL ∈ _),
      hall _ (by decide : StatsPerform.EVENT_QUALIFIER_THROUGH_BALL ∈ _),
      hall _ (by decide : StatsPerform.EVENT_QUALIFIER_LAUNCH ∈ _),
      hall _ (by decide : StatsPerform.EVENT_QUALIFIER_FLICK_ON ∈ _),
      hall _ (by decide : StatsPerform.EVENT_QUALIFIER_ASSIST ∈ _),
      hall _ (by decide : StatsPerform.EVENT_QUALIFIER_ASSIST_2ND ∈ _)]
  · intro raws hall
    unfold StatsPerform._get_event_card_qualifiers StatsPerform.qualifierPresent
    simp [hall _ (by decide : StatsPerform.EVENT_QUALIFIER_RED_CARD ∈ _),
      hall _ (by decide : StatsPerform.EVENT_QUALIFIER_FIRST_YELLOW_CARD ∈ _),
      hall _ (by decide : StatsPerform.EVENT_QUALIFIER_SECOND_YELLOW_CARD ∈ _)]

/-- C5 amended witness: the take-on record with a corner code is built
with null qualifiers, and on an empty raw dict every chain yields
nothing. -/
theorem C5_amended_qualifier_attachment_witness :
    spTakeOnEvent.qualifiers =
      (if [StatsPerform.EVENT_TYPE_PASS, StatsPerform.EVENT_TYPE_OFFSIDE_PASS,
          StatsPerform.EVENT_TYPE_SHOT_MISS, StatsPerform.EVENT_TYPE_SHOT_POST,
          StatsPerform.EVENT_TYPE_SHOT_SAVED, StatsPerform.EVENT_TYPE_SHOT_GOAL,
          StatsPerform.EVENT_TYPE_CARD].contains spTakeOnCornerRec.type_id
        then some (StatsPerform._get_event_qualifiers spTakeOnCornerRec.qualifier)
        else none) ∧
    StatsPerform._get_event_setpiece_qualifiers noQualifiers = [] ∧
    StatsPerform._get_event_bodypart_qualifiers noQualifiers = [] ∧
    StatsPerform._get_event_pass_qualifiers noQualifiers = [] ∧
    StatsPerform._get_event_card_qualifiers noQualifiers = [] :=
  ⟨C5_amended_qualifier_attachment.1 "t1" "t2" spState0 spStateHome spTakeOnCornerRec
     spTakeOnEvent (by rfl),
   C5_amended_qualifier_attachment.2.1 noQualifiers (fun c _ => rfl),
   C5_amended_qualifier_attachment.2.2.1 noQualifiers (fun c _ => rfl),
   C5_amended_qualifier_attachment.2.2.2.1 noQualifiers (fun c _ => rfl),
   C5_amended_qualifier_attachment.2.2.2.2 noQualifiers (fun c _ => rfl)⟩

end Kloppy
